import Mathlib

/-!
# Verification of the sprout-track authentication and device-token layer

Shallow embedding of the authentication resolver (`getAuthenticatedUser`,
`validateDeviceToken`, the `withAuth` / `withAdminAuth` / `withAuthContext`
middlewares, the in-memory token blacklist) and of the HTTP route handlers
for device tokens, voice logging, kindle logging and magic links
(`src/app/api/utils/auth.ts`, `src/app/api/device-tokens/route.ts`,
`src/app/api/voice/log/route.ts`, the magic-link route and the kindle log
route).

Modelling conventions:
* times are naturals (milliseconds since the epoch), `now` is passed
  explicitly; JWT `exp` claims are in seconds, as in the code;
* the relational store is a record of lists of rows; `findUnique` and
  `findFirst` are `List.find?`; `update` maps over the rows;
* JavaScript truthiness of strings (empty string is falsy) and of numbers
  (zero is falsy) is made explicit through the `js*` helpers;
* JWT signing and verification are modelled by an environment listing the
  structurally valid tokens with their payloads, expiry and a signature
  validity bit: `jwt.verify` requires a valid signature and an unexpired
  `exp`; `jwt.decode` reads the payload without checking the signature;
* thrown exceptions caught by `try/catch` are modelled by the explicit
  failure branches (missing required relation rows, unparsable bodies).
-/

namespace SproutTrack

/-! ### Kernel-computable string primitives

The JavaScript string operations used by the code (`startsWith`,
`substring`, `toLowerCase`, `trim`, `split`) are modelled characterwise
over `String.data`; on the ASCII identifiers, slugs and tokens the code
manipulates these agree with the JavaScript builtins. -/

/-- `s.startsWith(p)`. -/
def strStartsWith (s p : String) : Bool := p.data.isPrefixOf s.data

/-- `s.substring(n)`. -/
def strDrop (s : String) (n : Nat) : String := ⟨s.data.drop n⟩

/-- `s.substring(0, n)`. -/
def strTake (s : String) (n : Nat) : String := ⟨s.data.take n⟩

/-- `s.toLowerCase()`. -/
def strToLower (s : String) : String := ⟨s.data.map Char.toLower⟩

/-- Whitespace characters removed by `s.trim()`. -/
def jsWhitespace (c : Char) : Bool := c = ' ' || c = '\t' || c = '\n' || c = '\r'

/-- `s.trim()`. -/
def strTrim (s : String) : String :=
  ⟨((s.data.dropWhile jsWhitespace).reverse.dropWhile jsWhitespace).reverse⟩

/-- `s.split('/')`. -/
def splitOnSlash (s : String) : List String :=
  (s.data.splitOn '/').map (fun l => ⟨l⟩)

/-- JavaScript truthiness for an optional string: `null`, `undefined` and
the empty string are falsy. -/
def jsStr : Option String → Option String
  | some s => if s = "" then none else some s
  | none => none

/-- JavaScript `a || d` for an optional string `a` and a string default. -/
def jsOrStr (a : Option String) (d : String) : String :=
  match jsStr a with
  | some s => s
  | none => d

/-- JavaScript truthiness for an optional number: `null`, `undefined` and
`0` are falsy (used for `expiresAt ? ... : null` style tests). -/
def jsNum : Option Nat → Option Nat
  | some n => if n = 0 then none else some n
  | none => none

/-! ## Relational rows (Prisma models referenced by the embedded code) -/

/-- An `Account` row (fields read by the auth resolver). -/
structure Account where
  id : String
  closed : Bool
  betaparticipant : Bool
  verified : Bool
  trialEnds : Option Nat
  planExpires : Option Nat
  planType : Option String
  familyId : Option String
  caretakerId : Option String
deriving Repr, DecidableEq

/-- A `Caretaker` row. -/
structure Caretaker where
  id : String
  loginId : String
  name : String
  type : Option String
  role : String
  familyId : Option String
  deletedAt : Option Nat
deriving Repr, DecidableEq

/-- A `Family` row. -/
structure Family where
  id : String
  slug : String
deriving Repr, DecidableEq

/-- A `DeviceToken` row. -/
structure DeviceToken where
  id : String
  token : String
  name : String
  familyId : String
  caretakerId : String
  expiresAt : Option Nat
  revokedAt : Option Nat
  lastUsedAt : Option Nat
  createdAt : Nat
deriving Repr, DecidableEq

/-- A `FamilySetup` row (looked up by `withAuthContext`). -/
structure FamilySetup where
  token : String
  familyId : Option String
deriving Repr, DecidableEq

/-- A `Baby` row (fields read by the voice and kindle log routes). -/
structure Baby where
  id : String
  firstName : String
  familyId : String
  inactive : Bool
  deletedAt : Option Nat
deriving Repr, DecidableEq

/-- A `Settings` row. -/
structure Settings where
  familyId : String
  defaultBottleUnit : Option String
deriving Repr, DecidableEq

/-- A `Medicine` row. -/
structure Medicine where
  id : String
  name : String
  familyId : String
  active : Bool
  typicalDoseSize : Option Nat
  unitAbbr : Option String
deriving Repr, DecidableEq

/-- A `SleepLog` row. -/
structure SleepLog where
  id : String
  babyId : String
  familyId : String
  startTime : Nat
  endTime : Option Nat
  duration : Option Nat
  type : String
  caretakerId : Option String
deriving Repr, DecidableEq

/-- A `FeedLog` row (fields written by the log routes). -/
structure FeedLog where
  babyId : String
  familyId : String
  time : Nat
  type : String
  amount : Option Nat
  unitAbbr : Option String
  side : Option String
  bottleType : Option String
  caretakerId : Option String
deriving Repr, DecidableEq

/-- A `DiaperLog` row. -/
structure DiaperLog where
  babyId : String
  familyId : String
  time : Nat
  type : String
  caretakerId : Option String
deriving Repr, DecidableEq

/-- A `MedicineLog` row. -/
structure MedicineLog where
  babyId : String
  medicineId : String
  familyId : String
  time : Nat
  doseAmount : Nat
  unitAbbr : Option String
  caretakerId : Option String
deriving Repr, DecidableEq

/-- The relational store. -/
structure DB where
  accounts : List Account
  caretakers : List Caretaker
  families : List Family
  deviceTokens : List DeviceToken
  familySetups : List FamilySetup
  babies : List Baby
  settings : List Settings
  medicines : List Medicine
  sleepLogs : List SleepLog
  feedLogs : List FeedLog
  diaperLogs : List DiaperLog
  medicineLogs : List MedicineLog
deriving Repr, DecidableEq

/-! ## JWT environment -/

/-- Decoded JWT payload kinds distinguished by `getAuthenticatedUser`:
setup tokens (`isSetupAuth` with a `setupToken`), account tokens
(`isAccountAuth`), and all remaining (regular caretaker-style) payloads. -/
inductive JwtPayload where
  | setup (setupToken : String)
  | account (accountId : String) (accountEmail : String)
  | regular (id : String) (name : String) (type : Option String) (role : String)
      (familyId : Option String) (familySlug : Option String)
      (isSysAdmin : Bool) (authType : Option String)
deriving Repr, DecidableEq

/-- A structurally valid JWT string together with its decoded payload,
optional `exp` claim (seconds) and whether its signature verifies against
the current secret. -/
structure SignedToken where
  str : String
  payload : JwtPayload
  exp : Option Nat
  validSig : Bool
deriving Repr, DecidableEq

/-- The ambient JWT universe: the list of structurally valid token
strings.  Strings not listed are malformed (both `verify` and `decode`
fail on them). -/
structure JwtEnv where
  tokens : List SignedToken
deriving Repr, DecidableEq

/-- `jwt.verify(token, secret)`: succeeds when the string is a valid JWT,
its signature verifies, and the `exp` claim (if present) has not passed
(`jsonwebtoken` rejects once the clock in seconds reaches `exp`). -/
def jwtVerify (env : JwtEnv) (nowMs : Nat) (t : String) : Option JwtPayload :=
  match env.tokens.find? (fun st => st.str = t) with
  | none => none
  | some st =>
    if st.validSig then
      match st.exp with
      | some e => if nowMs / 1000 ≥ e then none else some st.payload
      | none => some st.payload
    else none

/-- `jwt.decode(token)`: reads the `exp` claim without verifying the
signature; fails only on malformed strings. -/
def jwtDecode (env : JwtEnv) (t : String) : Option (Option Nat) :=
  (env.tokens.find? (fun st => st.str = t)).map (fun st => st.exp)

/-! ## Token blacklist (the process-wide mutable `Map`) -/

/-- The in-memory token blacklist: invalidated token strings with the
stored expiry time in milliseconds. -/
abbrev Blacklist := List (String × Nat)

/-- `tokenBlacklist.has(token)`. -/
def blHas (bl : Blacklist) (t : String) : Bool :=
  bl.any (fun p => p.1 = t)

/-- `tokenBlacklist.set(token, expiry)` (Map semantics: replaces any
existing entry for the same key). -/
def blSet (bl : Blacklist) (t : String) (e : Nat) : Blacklist :=
  (t, e) :: bl.filter (fun p => ¬ p.1 = t)

/-- One run of the hourly cleanup interval: deletes every entry whose
stored expiry is strictly in the past (`now > expiry`). -/
def cleanupBlacklist (nowMs : Nat) (bl : Blacklist) : Blacklist :=
  bl.filter (fun p => ¬ nowMs > p.2)

/-- `invalidateToken`: decodes the token without verification; when the
payload carries a (truthy) `exp` claim, stores the token until
`exp * 1000` and returns `true`, otherwise returns `false`. -/
def invalidateToken (env : JwtEnv) (bl : Blacklist) (token : String) :
    Bool × Blacklist :=
  match jwtDecode env token with
  | some (some e) =>
    if e ≠ 0 then (true, blSet bl token (e * 1000)) else (false, bl)
  | some none => (false, bl)
  | none => (false, bl)

/-! ## Requests, environment, authentication results -/

/-- Parsed components of a request URL (`new URL(req.url)`). -/
structure UrlParts where
  pathname : String
  queryFamilyId : Option String
  queryId : Option String
  origin : String
deriving Repr, DecidableEq

/-- The request data read by the embedded handlers. An unparsable
`referer` header (`new URL` throwing) is modelled by `none`. -/
structure Request where
  authHeader : Option String
  cookieCaretakerId : Option String
  url : UrlParts
  referer : Option UrlParts
deriving Repr, DecidableEq

/-- Process environment: `DEPLOYMENT_MODE`. -/
structure Env where
  deploymentMode : String
deriving Repr, DecidableEq

/-- `AuthResult`: the result struct returned by the auth resolver.
Optional fields absent from a given return statement keep their default
(`none`, or `false` for the flags that are only ever tested for JavaScript
truthiness). Date fields are times in milliseconds. -/
structure AuthResult where
  authenticated : Bool
  caretakerId : Option String := none
  caretakerType : Option String := none
  caretakerRole : Option String := none
  familyId : Option String := none
  familySlug : Option String := none
  isSysAdmin : Bool := false
  isSetupAuth : Bool := false
  setupToken : Option String := none
  authType : Option String := none
  isAccountAuth : Bool := false
  accountId : Option String := none
  accountEmail : Option String := none
  isAccountOwner : Bool := false
  verified : Option Bool := none
  betaparticipant : Option Bool := none
  isExpired : Option Bool := none
  trialEnds : Option Nat := none
  planExpires : Option Nat := none
  planType : Option String := none
  error : Option String := none
deriving Repr, DecidableEq

/-! ## validateDeviceToken -/

/-- `validateDeviceToken`: looks up the `DeviceToken` row by its unique
token string, rejects revoked or expired tokens, fires the `lastUsedAt`
update, and returns the family and caretaker context. A broken required
`caretaker` relation makes the ORM throw, landing in the catch branch.
Returns the `AuthResult` together with the store after the `lastUsedAt`
write. -/
def validateDeviceToken (db : DB) (now : Nat) (token : String) :
    AuthResult × DB :=
  match db.deviceTokens.find? (fun dt => dt.token = token) with
  | none => ({ authenticated := false, error := some "Invalid device token" }, db)
  | some dt =>
    if dt.revokedAt.isSome then
      ({ authenticated := false, error := some "Device token has been revoked" }, db)
    else if dt.expiresAt.any (fun e => now > e) then
      ({ authenticated := false, error := some "Device token has expired" }, db)
    else
      match db.caretakers.find? (fun c => c.id = dt.caretakerId) with
      | none =>
        ({ authenticated := false, error := some "Device token validation failed" }, db)
      | some ct =>
        let fam := db.families.find? (fun f => f.id = dt.familyId)
        let db' := { db with deviceTokens :=
          db.deviceTokens.map (fun d =>
            if d.id = dt.id then { d with lastUsedAt := some now } else d) }
        ({ authenticated := true,
           caretakerId := some dt.caretakerId,
           caretakerType := ct.type,
           caretakerRole := some ct.role,
           familyId := some dt.familyId,
           familySlug := jsStr (fam.map (fun f => f.slug)),
           isSysAdmin := false,
           authType := some "DEVICE_TOKEN" }, db')

/-! ## getAuthenticatedUser -/

/-- The expiration-status block repeated in the account, regular-token and
cookie branches of `getAuthenticatedUser`. `gate` is the surrounding
condition (SAAS mode, non-beta account, and — in the account branch —
presence of a family). The final arm is the JavaScript truthiness test
`!account.planType`, falsy for both a missing and an empty plan type. -/
def computeIsExpired (gate : Bool) (trialEnds planExpires : Option Nat)
    (planType : Option String) (now : Nat) : Bool :=
  if gate then
    match trialEnds with
    | some te => now > te
    | none =>
      match planExpires with
      | some pe => now > pe
      | none => (jsStr planType).isNone
  else false

/-- Joined `family` relation of an account. -/
def accountFamily (db : DB) (a : Account) : Option Family :=
  a.familyId.bind (fun fid => db.families.find? (fun f => f.id = fid))

/-- Reverse `account` relation of a family. -/
def familyAccount (db : DB) (f : Family) : Option Account :=
  db.accounts.find? (fun a => a.familyId = some f.id)

/-- The account-token branch of `getAuthenticatedUser` (the
`decoded.isAccountAuth` case). -/
def accountAuth (env : Env) (db : DB) (now : Nat)
    (accountId accountEmail : String) : AuthResult :=
  match db.accounts.find? (fun a => a.id = accountId) with
  | none => { authenticated := false, error := some "Account not found" }
  | some account =>
    if account.closed then
      { authenticated := false, error := some "Account is closed" }
    else
      let isSaasMode := env.deploymentMode = "saas"
      let fam := accountFamily db account
      let isExpired := computeIsExpired
        (isSaasMode && fam.isSome && !account.betaparticipant)
        account.trialEnds account.planExpires account.planType now
      match account.caretakerId.bind
          (fun cid => db.caretakers.find? (fun c => c.id = cid)) with
      | some ct =>
        { authenticated := true,
          caretakerId := some ct.id,
          caretakerType := some (jsOrStr ct.type "Account Owner"),
          caretakerRole := some ct.role,
          familyId := jsStr (fam.map (fun f => f.id)),
          familySlug := jsStr (fam.map (fun f => f.slug)),
          isAccountAuth := true,
          accountId := some accountId,
          accountEmail := some accountEmail,
          isAccountOwner := true,
          verified := some account.verified,
          betaparticipant := some account.betaparticipant,
          isExpired := some isExpired,
          trialEnds := account.trialEnds,
          planExpires := account.planExpires,
          planType := account.planType }
      | none =>
        match fam with
        | none =>
          { authenticated := true,
            caretakerId := some accountId,
            caretakerType := some "ACCOUNT",
            caretakerRole := some "OWNER",
            familyId := none,
            familySlug := none,
            isAccountAuth := true,
            accountId := some accountId,
            accountEmail := some accountEmail,
            isAccountOwner := true,
            verified := some account.verified,
            betaparticipant := some account.betaparticipant,
            isExpired := some isExpired,
            trialEnds := account.trialEnds,
            planExpires := account.planExpires,
            planType := account.planType }
        | some f =>
          { authenticated := true,
            caretakerId := some accountId,
            caretakerType := some "ACCOUNT",
            caretakerRole := some "OWNER",
            familyId := some f.id,
            familySlug := some f.slug,
            isAccountAuth := true,
            accountId := some accountId,
            accountEmail := some accountEmail,
            isAccountOwner := true,
            verified := some account.verified,
            betaparticipant := some account.betaparticipant,
            isExpired := some isExpired,
            trialEnds := account.trialEnds,
            planExpires := account.planExpires,
            planType := account.planType }

/-- The regular (PIN-based caretaker) token branch of
`getAuthenticatedUser`. -/
def regularAuth (env : Env) (db : DB) (now : Nat)
    (id _name : String) (type : Option String) (role : String)
    (familyId familySlug : Option String) (isSysAdmin : Bool)
    (authType : Option String) : AuthResult :=
  let acct :=
    if (jsStr familyId).isSome && !isSysAdmin then
      ((jsStr familyId).bind
        (fun fid => db.families.find? (fun f => f.id = fid))).bind
        (fun f => familyAccount db f)
    else none
  match acct with
  | some account =>
    if account.closed then
      { authenticated := false, error := some "Family account is closed" }
    else
      let isSaasMode := env.deploymentMode = "saas"
      let isExpired := computeIsExpired (isSaasMode && !account.betaparticipant)
        account.trialEnds account.planExpires account.planType now
      { authenticated := true,
        caretakerId := if isSysAdmin then none else some id,
        caretakerType := type,
        caretakerRole := some role,
        familyId := familyId,
        familySlug := familySlug,
        isSysAdmin := isSysAdmin,
        authType := some (jsOrStr authType "CARETAKER"),
        betaparticipant := some account.betaparticipant,
        isExpired := some isExpired,
        trialEnds := account.trialEnds,
        planExpires := account.planExpires,
        planType := account.planType }
  | none =>
    { authenticated := true,
      caretakerId := if isSysAdmin then none else some id,
      caretakerType := type,
      caretakerRole := some role,
      familyId := familyId,
      familySlug := familySlug,
      isSysAdmin := isSysAdmin,
      authType := some (jsOrStr authType "CARETAKER"),
      betaparticipant := some false,
      isExpired := some false,
      trialEnds := none,
      planExpires := none,
      planType := none }

/-- The legacy cookie branch of `getAuthenticatedUser`: looks up a
non-deleted caretaker by the `caretakerId` cookie; when the lookup fails,
control falls through to the final "No valid authentication found"
return. -/
def cookieAuth (env : Env) (db : DB) (now : Nat) (cid : String) : AuthResult :=
  match db.caretakers.find? (fun c => c.id = cid && c.deletedAt.isNone) with
  | none => { authenticated := false, error := some "No valid authentication found" }
  | some ct =>
    let fam := ct.familyId.bind (fun fid => db.families.find? (fun f => f.id = fid))
    match fam.bind (fun f => familyAccount db f) with
    | some account =>
      if account.closed then
        { authenticated := false, error := some "Family account is closed" }
      else
        let isSaasMode := env.deploymentMode = "saas"
        let isExpired := computeIsExpired (isSaasMode && !account.betaparticipant)
          account.trialEnds account.planExpires account.planType now
        { authenticated := true,
          caretakerId := some ct.id,
          caretakerType := ct.type,
          caretakerRole := some (jsOrStr (some ct.role) "USER"),
          familyId := ct.familyId,
          familySlug := fam.map (fun f => f.slug),
          isSysAdmin := false,
          authType := some "CARETAKER",
          betaparticipant := some account.betaparticipant,
          isExpired := some isExpired,
          trialEnds := account.trialEnds,
          planExpires := account.planExpires,
          planType := account.planType }
    | none =>
      { authenticated := true,
        caretakerId := some ct.id,
        caretakerType := ct.type,
        caretakerRole := some (jsOrStr (some ct.role) "USER"),
        familyId := ct.familyId,
        familySlug := fam.map (fun f => f.slug),
        isSysAdmin := false,
        authType := some "CARETAKER",
        betaparticipant := some false,
        isExpired := some false,
        trialEnds := none,
        planExpires := none,
        planType := none }

/-- Extraction of the bearer token from the `Authorization` header. -/
def extractBearer (authHeader : Option String) : Option String :=
  authHeader.bind (fun h =>
    if strStartsWith h "Bearer " then some (strDrop h 7) else none)

/-- `getAuthenticatedUser`: blacklist check, JWT verification, then the
setup / account / regular branches; with no bearer token, the legacy
cookie branch; otherwise no valid authentication. -/
def getAuthenticatedUser (env : Env) (jenv : JwtEnv) (db : DB)
    (bl : Blacklist) (now : Nat) (req : Request) : AuthResult :=
  match extractBearer req.authHeader with
  | some t =>
    if blHas bl t then
      { authenticated := false, error := some "Token has been invalidated" }
    else
      match jwtVerify jenv now t with
      | none => { authenticated := false, error := some "Invalid or expired token" }
      | some (.setup st) =>
        { authenticated := true,
          caretakerId := none,
          caretakerType := some "Setup",
          caretakerRole := some "ADMIN",
          familyId := none,
          familySlug := none,
          isSysAdmin := false,
          isSetupAuth := true,
          setupToken := some st }
      | some (.account aid email) => accountAuth env db now aid email
      | some (.regular id name type role familyId familySlug isSysAdmin authType) =>
        regularAuth env db now id name type role familyId familySlug isSysAdmin authType
  | none =>
    match jsStr req.cookieCaretakerId with
    | some cid => cookieAuth env db now cid
    | none => { authenticated := false, error := some "No valid authentication found" }

/-! ## HTTP responses -/

/-- A device-token listing entry after masking (`maskedTokens` in
`handleGet`): carries only a preview of the token string. -/
structure MaskedToken where
  id : String
  tokenPreview : String
  name : String
  caretakerName : String
  expiresAt : Option Nat
  revokedAt : Option Nat
  lastUsedAt : Option Nat
  createdAt : Nat
  isActive : Bool
deriving Repr, DecidableEq

/-- A JWT produced by `jwt.sign(payload, secret, options?)`: the payload
and the optional `exp` claim (none when no `expiresIn` is given). -/
structure IssuedJwt where
  payload : JwtPayload
  exp : Option Nat
deriving Repr, DecidableEq

/-- The `data` field of a JSON response body. -/
inductive RespData where
  | empty
  | message (msg : String)
  | createdToken (id token name : String) (createdAt : Nat) (expiresAt : Option Nat)
  | tokenList (entries : List MaskedToken)
  | magicLink (jwtToken : IssuedJwt) (familySlug : Option String)
      (caretakerId : Option String) (caretakerName : String)
deriving Repr, DecidableEq

/-- An HTTP response: either `NextResponse.json` (status, `success`,
`error`, `data` of the `ApiResponse` body) or `NextResponse.redirect`. -/
inductive HttpResponse where
  | json (status : Nat) (success : Bool) (error : Option String) (data : RespData)
  | redirect (status : Nat) (location : String)
deriving Repr, DecidableEq

/-- `NextResponse.json({success:false, error}, {status})`. -/
def errJson (status : Nat) (msg : String) : HttpResponse :=
  .json status false (some msg) .empty

/-- `NextResponse.json({success:true, data})` (default status 200). -/
def okJson (d : RespData) : HttpResponse :=
  .json 200 true none d

/-! ## Middlewares -/

/-- `withAuth`: rejects unauthenticated requests with a 401, otherwise
runs the wrapped handler. -/
def withAuth (handler : Request → HttpResponse) (env : Env) (jenv : JwtEnv)
    (db : DB) (bl : Blacklist) (now : Nat) (req : Request) : HttpResponse :=
  let authResult := getAuthenticatedUser env jenv db bl now req
  if !authResult.authenticated then
    errJson 401 "Authentication required"
  else
    handler req

/-- The system-caretaker lookup of `withAdminAuth`: when the auth result
carries a (truthy) caretaker id, a non-deleted caretaker row with that id
and `loginId` `00` makes the caller a system caretaker. -/
def isSystemCaretakerCheck (db : DB) (caretakerId : Option String) : Bool :=
  match jsStr caretakerId with
  | some cid =>
    (db.caretakers.find? (fun c =>
      c.id = cid && c.loginId = "00" && c.deletedAt.isNone)).isSome
  | none => false

/-- `withAdminAuth`: after the authentication check, admits ADMIN-role
callers, system administrators, and system caretakers (a non-deleted
caretaker row with the callers id and `loginId` `00`); rejects the rest
with a 403. -/
def withAdminAuth (handler : Request → HttpResponse) (env : Env)
    (jenv : JwtEnv) (db : DB) (bl : Blacklist) (now : Nat) (req : Request) :
    HttpResponse :=
  let authResult := getAuthenticatedUser env jenv db bl now req
  if !authResult.authenticated then
    errJson 401 "Authentication required"
  else
    let isSystemCaretaker := isSystemCaretakerCheck db authResult.caretakerId
    if authResult.caretakerRole ≠ some "ADMIN" ∧ isSystemCaretaker = false ∧
        authResult.isSysAdmin = false then
      errJson 403 "Admin access required"
    else
      handler req

/-- `url.pathname.split('/').filter(Boolean)`. -/
def pathSegments (p : String) : List String :=
  (splitOnSlash p).filter (fun s => s ≠ "")

/-- The first path segment when the URL looks like a family route (not
`api…`, `family-manager…` or `setup…`). -/
def familyRouteSlug (u : UrlParts) : Option String :=
  match pathSegments u.pathname with
  | [] => none
  | s :: _ =>
    if !(strStartsWith s "api") && !(strStartsWith s "family-manager") &&
        !(strStartsWith s "setup") then some s else none

/-- Family-id extraction from a family-route URL by slug lookup. -/
def lookupFamilyIdBySlug (db : DB) (u : UrlParts) : Option String :=
  (familyRouteSlug u).bind (fun slug =>
    (db.families.find? (fun f => f.slug = slug)).map (fun f => f.id))

/-- `withAuthContext`: authentication check, then family-context
extraction for setup tokens (query parameter validated against the
`FamilySetup` row) and for system administrators (query parameter, URL
path, then referer); the handler receives the possibly modified
`AuthResult`. -/
def withAuthContext (handler : Request → AuthResult → HttpResponse × DB)
    (env : Env) (jenv : JwtEnv) (db : DB) (bl : Blacklist) (now : Nat)
    (req : Request) : HttpResponse × DB :=
  let a := getAuthenticatedUser env jenv db bl now req
  if !a.authenticated then
    (errJson 401 "Authentication required", db)
  else if a.isSetupAuth && (jsStr a.setupToken).isSome then
    match jsStr req.url.queryFamilyId with
    | some fid =>
      match (jsStr a.setupToken).bind
          (fun st => db.familySetups.find? (fun su => su.token = st)) with
      | some su =>
        if su.familyId = some fid ∨ su.familyId = none then
          handler req { a with familyId := some fid }
        else
          (errJson 403 "Setup token is not authorized for this family", db)
      | none =>
        (errJson 403 "Setup token is not authorized for this family", db)
    | none => handler req a
  else if a.isSysAdmin then
    let fid1 := jsStr req.url.queryFamilyId
    let fid2 :=
      match fid1 with
      | some f => some f
      | none => lookupFamilyIdBySlug db req.url
    let fid3 :=
      match fid2 with
      | some f => some f
      | none => req.referer.bind (fun r => lookupFamilyIdBySlug db r)
    let newFamilyId :=
      match jsStr fid3 with
      | some f => some f
      | none => a.familyId
    handler req { a with familyId := newFamilyId }
  else
    handler req a

/-! ## Device-token routes -/

/-- Parsed body of `POST /api/device-tokens`. -/
structure DeviceTokenPostBody where
  name : Option String
  expiresAt : Option Nat
deriving Repr, DecidableEq

/-- `handlePost` of the device-tokens route: admin-only creation of a
device token. `genId` and `genToken` stand for the database-generated id
and the `randomBytes(32).toString('hex')` token. A missing body models
`req.json()` throwing; a broken `connect` target makes the ORM throw;
both land in the catch branch. -/
def handlePost (db : DB) (now : Nat) (genId genToken : String)
    (body : Option DeviceTokenPostBody) (authContext : AuthResult) :
    HttpResponse × DB :=
  if authContext.caretakerRole ≠ some "ADMIN" ∧ ¬authContext.isSysAdmin then
    (errJson 403 "Admin access required to manage device tokens", db)
  else
    match jsStr authContext.familyId with
    | none => (errJson 403 "User is not associated with a family.", db)
    | some fid =>
      match body with
      | none => (errJson 500 "Failed to create device token", db)
      | some b =>
        match jsStr b.name with
        | none => (errJson 400 "Device name is required", db)
        | some nm =>
          if strTrim nm = "" then
            (errJson 400 "Device name is required", db)
          else
            match jsStr authContext.caretakerId with
            | none => (errJson 500 "Failed to create device token", db)
            | some cid =>
              if (db.families.find? (fun f => f.id = fid)).isNone ∨
                  (db.caretakers.find? (fun c => c.id = cid)).isNone then
                (errJson 500 "Failed to create device token", db)
              else
                let dt : DeviceToken :=
                  { id := genId, token := genToken, name := strTrim nm,
                    familyId := fid, caretakerId := cid,
                    expiresAt := jsNum b.expiresAt, revokedAt := none,
                    lastUsedAt := none, createdAt := now }
                (okJson (.createdToken genId genToken (strTrim nm) now (jsNum b.expiresAt)),
                 { db with deviceTokens := dt :: db.deviceTokens })

/-- One masked listing entry. -/
def maskToken (now : Nat) (caretakerName : String) (t : DeviceToken) :
    MaskedToken :=
  { id := t.id,
    tokenPreview := strTake t.token 8 ++ "...",
    name := t.name,
    caretakerName := caretakerName,
    expiresAt := t.expiresAt,
    revokedAt := t.revokedAt,
    lastUsedAt := t.lastUsedAt,
    createdAt := t.createdAt,
    isActive := t.revokedAt.isNone &&
      (t.expiresAt.isNone || t.expiresAt.any (fun e => now < e)) }

/-- Insertion step of the `orderBy: { createdAt: 'desc' }` ordering. -/
def insertByCreatedAtDesc (x : DeviceToken) :
    List DeviceToken → List DeviceToken
  | [] => [x]
  | y :: ys =>
    if x.createdAt ≤ y.createdAt then y :: insertByCreatedAtDesc x ys
    else x :: y :: ys

/-- `orderBy: { createdAt: 'desc' }`. -/
def sortByCreatedAtDesc : List DeviceToken → List DeviceToken
  | [] => []
  | x :: xs => insertByCreatedAtDesc x (sortByCreatedAtDesc xs)

/-- The masking map of `handleGet`, joining each token with its (required)
caretaker row; a broken relation makes the ORM throw (`none`). -/
def maskTokens (db : DB) (now : Nat) :
    List DeviceToken → Option (List MaskedToken)
  | [] => some []
  | t :: ts =>
    match db.caretakers.find? (fun c => c.id = t.caretakerId) with
    | none => none
    | some c =>
      (maskTokens db now ts).map (fun rest => maskToken now c.name t :: rest)

/-- `handleGet` of the device-tokens route: admin-only listing of the
family device tokens with masked token strings. -/
def handleGet (db : DB) (now : Nat) (authContext : AuthResult) :
    HttpResponse × DB :=
  if authContext.caretakerRole ≠ some "ADMIN" ∧ ¬authContext.isSysAdmin then
    (errJson 403 "Admin access required", db)
  else
    match jsStr authContext.familyId with
    | none => (errJson 403 "User is not associated with a family.", db)
    | some fid =>
      let toks :=
        sortByCreatedAtDesc (db.deviceTokens.filter (fun t => t.familyId = fid))
      match maskTokens db now toks with
      | none => (errJson 500 "Failed to list device tokens", db)
      | some entries => (okJson (.tokenList entries), db)

/-- `handleDelete` of the device-tokens route: admin-only soft revocation
(sets `revokedAt`) of a device token of the callers family. -/
def handleDelete (db : DB) (now : Nat) (queryId : Option String)
    (authContext : AuthResult) : HttpResponse × DB :=
  if authContext.caretakerRole ≠ some "ADMIN" ∧ ¬authContext.isSysAdmin then
    (errJson 403 "Admin access required", db)
  else
    match jsStr authContext.familyId with
    | none => (errJson 403 "User is not associated with a family.", db)
    | some fid =>
      match jsStr queryId with
      | none => (errJson 400 "Device token ID is required", db)
      | some id =>
        match db.deviceTokens.find? (fun dt => dt.id = id && dt.familyId = fid) with
        | none => (errJson 404 "Device token not found", db)
        | some _ =>
          (okJson .empty,
           { db with deviceTokens := db.deviceTokens.map (fun dt =>
               if dt.id = id then { dt with revokedAt := some now } else dt) })

/-- `GET /api/device-tokens` (the exported composed route). -/
def deviceTokensGET (env : Env) (jenv : JwtEnv) (db : DB) (bl : Blacklist)
    (now : Nat) (req : Request) : HttpResponse × DB :=
  withAuthContext (fun _ a => handleGet db now a) env jenv db bl now req

/-- `POST /api/device-tokens` (the exported composed route). -/
def deviceTokensPOST (env : Env) (jenv : JwtEnv) (db : DB) (bl : Blacklist)
    (now : Nat) (genId genToken : String) (body : Option DeviceTokenPostBody)
    (req : Request) : HttpResponse × DB :=
  withAuthContext (fun _ a => handlePost db now genId genToken body a)
    env jenv db bl now req

/-- `DELETE /api/device-tokens` (the exported composed route). -/
def deviceTokensDELETE (env : Env) (jenv : JwtEnv) (db : DB) (bl : Blacklist)
    (now : Nat) (req : Request) : HttpResponse × DB :=
  withAuthContext (fun r a => handleDelete db now r.url.queryId a)
    env jenv db bl now req

/-! ## Magic-link route -/

/-- The caretaker-details lookup of the magic-link route: name, type and
role of the caretaker when the id is truthy and the row exists, otherwise
the defaults. -/
def magicCaretakerDetails (db : DB) (caretakerId : Option String) :
    String × Option String × String :=
  match jsStr caretakerId with
  | some cid =>
    match db.caretakers.find? (fun c => c.id = cid) with
    | some c => (c.name, c.type, c.role)
    | none => ("User", none, "USER")
  | none => ("User", none, "USER")

/-- `POST /api/auth/magic-link`: validates a device token and issues a
long-lived JWT (signed without `expiresIn`) for full app access. The body
argument is `none` when `req.json()` throws. -/
def magicLinkPost (db : DB) (now : Nat) (body : Option (Option String)) :
    HttpResponse × DB :=
  match body with
  | none => (errJson 500 "Authentication failed", db)
  | some tokenField =>
    match jsStr tokenField with
    | none => (errJson 400 "Device token is required", db)
    | some token =>
      let res := validateDeviceToken db now token
      let authResult := res.1
      let db1 := res.2
      if ¬authResult.authenticated ∨ (jsStr authResult.familyId).isNone then
        (errJson 401 (jsOrStr authResult.error "Invalid or expired device token"), db1)
      else
        let caretakerDetails := magicCaretakerDetails db1 authResult.caretakerId
        let issued : IssuedJwt :=
          { payload := .regular (jsOrStr authResult.caretakerId "device")
              caretakerDetails.1 caretakerDetails.2.1 caretakerDetails.2.2
              authResult.familyId authResult.familySlug false
              (some "DEVICE_TOKEN"),
            exp := none }
        (okJson (.magicLink issued (jsStr authResult.familySlug)
          (jsStr authResult.caretakerId) caretakerDetails.1), db1)

/-! ## Voice log route -/

/-- Parsed JSON body of `POST /api/voice/log`. -/
structure VoiceBody where
  action : Option String
  babyName : Option String
  amount : Option Nat
  unit : Option String
  type : Option String
  side : Option String
  sleepType : Option String
  bottleType : Option String
  medicine : Option String
deriving Repr, DecidableEq

/-- `resolveUnit` of the voice route. -/
def resolveUnit (unit : Option String) (defaultUnit : String) : String :=
  match jsStr unit with
  | none => defaultUnit
  | some u0 =>
    let u := strTrim (strToLower u0)
    if ["oz", "ounce", "ounces"].contains u then "OZ"
    else if ["ml", "milliliter", "milliliters"].contains u then "ML"
    else if ["tbsp", "tablespoon", "tablespoons"].contains u then "TBSP"
    else if ["g", "gram", "grams"].contains u then "G"
    else defaultUnit

/-- `resolveSide` of the voice route. -/
def resolveSide (side : Option String) : Option String :=
  match jsStr side with
  | none => none
  | some s0 =>
    let s := strTrim (strToLower s0)
    if ["left", "l"].contains s then some "LEFT"
    else if ["right", "r"].contains s then some "RIGHT"
    else if ["both", "b"].contains s then some "BOTH"
    else none

/-- `resolveDiaperType` of the voice route. -/
def resolveDiaperType (type : Option String) : String :=
  match jsStr type with
  | none => "WET"
  | some t0 =>
    let t := strTrim (strToLower t0)
    if ["wet", "pee"].contains t then "WET"
    else if ["dirty", "poop", "soiled", "bm"].contains t then "DIRTY"
    else if ["both", "mixed"].contains t then "BOTH"
    else if ["dry", "clean"].contains t then "DRY"
    else "WET"

/-- `resolveSleepType` of the voice route. -/
def resolveSleepType (sleepType : Option String) : String :=
  match jsStr sleepType with
  | none => "NAP"
  | some t0 =>
    let t := strTrim (strToLower t0)
    if ["nap", "napping"].contains t then "NAP"
    else if ["night", "night_sleep", "night-sleep", "bedtime", "sleep"].contains t
      then "NIGHT_SLEEP"
    else "NAP"

/-- `resolveBaby` of the voice route: by case-insensitive first name, or
the unique active baby of the family. -/
def resolveBaby (db : DB) (familyId : String) (babyName : Option String) :
    Option Baby :=
  match jsStr babyName with
  | some bn =>
    db.babies.find? (fun b =>
      b.familyId = familyId && b.inactive = false &&
      strToLower b.firstName = strToLower bn)
  | none =>
    match db.babies.filter (fun b => b.familyId = familyId && b.inactive = false) with
    | [b] => some b
    | _ => none

/-- Active-baby first names of a family, joined for the error message. -/
def availableBabyNames (db : DB) (familyId : String) : String :=
  String.intercalate ", "
    ((db.babies.filter (fun b => b.familyId = familyId && b.inactive = false)).map
      (fun b => b.firstName))

/-- The most recent open sleep log (`findFirst` with
`orderBy: { startTime: 'desc' }`). -/
def latestActiveSleep (db : DB) (babyId familyId : String) : Option SleepLog :=
  (db.sleepLogs.filter (fun s =>
    s.babyId = babyId && s.familyId = familyId && s.endTime.isNone)).foldl
    (fun acc s =>
      match acc with
      | none => some s
      | some a => if s.startTime > a.startTime then some s else some a)
    none

/-- `Math.round((now - start) / 60000)` in whole minutes. -/
def roundMinutes (nowMs startMs : Nat) : Nat :=
  (nowMs - startMs + 30000) / 60000

/-- `POST /api/voice/log`: device-token-authenticated structured logging.
`genId` stands for the database-generated id of a created row; the body
argument is `none` when `req.json()` throws. -/
def voiceLogPost (db : DB) (now : Nat) (genId : String)
    (authHeader : Option String) (body : Option VoiceBody) :
    HttpResponse × DB :=
  match extractBearer authHeader with
  | none =>
    (errJson 401 "Missing Authorization: Bearer {device_token} header", db)
  | some token =>
    let res := validateDeviceToken db now token
    let authResult := res.1
    let db1 := res.2
    if ¬authResult.authenticated ∨ (jsStr authResult.familyId).isNone then
      (errJson 401 (jsOrStr authResult.error "Invalid or expired device token"), db1)
    else
      match jsStr authResult.familyId with
      | none => (errJson 500 "An error occurred processing the request", db1)
      | some familyId =>
        let caretakerId := authResult.caretakerId
        match body with
        | none => (errJson 500 "An error occurred processing the request", db1)
        | some b =>
          match jsStr b.action with
          | none => (errJson 400 "Missing required field: action", db1)
          | some action =>
            match resolveBaby db1 familyId b.babyName with
            | none =>
              let names := availableBabyNames db1 familyId
              (errJson 400
                (match jsStr b.babyName with
                 | some bn =>
                   "Baby \"" ++ bn ++ "\" not found. Available: " ++ names
                 | none =>
                   "Multiple babies found. Please specify babyName. Available: " ++ names),
               db1)
            | some baby =>
              let settings := db1.settings.find? (fun s => s.familyId = familyId)
              let babyId := baby.id
              let babyFirstName := baby.firstName
              let act := strToLower action
              if act = "bottle" then
                let feedAmount := jsNum b.amount
                let feedUnit := resolveUnit b.unit
                  (jsOrStr (settings.bind (fun s => s.defaultBottleUnit)) "OZ")
                let db2 := { db1 with feedLogs :=
                  { babyId := babyId, familyId := familyId, time := now,
                    type := "BOTTLE", amount := feedAmount,
                    unitAbbr := some feedUnit, side := none,
                    bottleType := jsStr b.bottleType,
                    caretakerId := caretakerId } :: db1.feedLogs }
                let msg :=
                  match feedAmount with
                  | some amt =>
                    "Logged bottle feeding for " ++ babyFirstName ++ ": " ++
                      toString amt ++ " " ++ strToLower feedUnit
                  | none => "Logged bottle feeding for " ++ babyFirstName
                (okJson (.message msg), db2)
              else if act = "breast" ∨ act = "nursing" then
                let breastSide := resolveSide b.side
                let db2 := { db1 with feedLogs :=
                  { babyId := babyId, familyId := familyId, time := now,
                    type := "BREAST", amount := none, unitAbbr := none,
                    side := breastSide, bottleType := none,
                    caretakerId := caretakerId } :: db1.feedLogs }
                let sideMsg :=
                  match breastSide with
                  | some s => " (" ++ strToLower s ++ ")"
                  | none => ""
                (okJson (.message ("Logged nursing for " ++ babyFirstName ++ sideMsg)), db2)
              else if act = "diaper" then
                let diaperType := resolveDiaperType b.type
                let db2 := { db1 with diaperLogs :=
                  { babyId := babyId, familyId := familyId, time := now,
                    type := diaperType, caretakerId := caretakerId } :: db1.diaperLogs }
                (okJson (.message
                  ("Logged " ++ strToLower diaperType ++ " diaper for " ++ babyFirstName)), db2)
              else if ["sleep-start", "sleep_start", "nap", "sleep"].contains act then
                let resolvedSleepType := resolveSleepType
                  (match jsStr b.sleepType with
                   | some st => some st
                   | none => some action)
                let db2 := { db1 with sleepLogs :=
                  { id := genId, babyId := babyId, familyId := familyId,
                    startTime := now, endTime := none, duration := none,
                    type := resolvedSleepType, caretakerId := caretakerId } :: db1.sleepLogs }
                let typeLabel := if resolvedSleepType = "NAP" then "nap" else "sleep"
                (okJson (.message ("Started " ++ typeLabel ++ " for " ++ babyFirstName)), db2)
              else if ["sleep-end", "sleep_end", "wake", "woke", "awake"].contains act then
                match latestActiveSleep db1 babyId familyId with
                | none =>
                  (errJson 400 ("No active sleep session found for " ++ babyFirstName), db1)
                | some activeSleep =>
                  let durationMinutes := roundMinutes now activeSleep.startTime
                  let db2 := { db1 with sleepLogs :=
                    (db1.sleepLogs.map (fun s =>
                      if s.id = activeSleep.id then
                        { s with endTime := some now, duration := some durationMinutes }
                      else s)) }
                  let hours := durationMinutes / 60
                  let mins := durationMinutes % 60
                  let durationStr :=
                    if hours > 0 then toString hours ++ "h " ++ toString mins ++ "m"
                    else toString mins ++ " minutes"
                  (okJson (.message (babyFirstName ++ " woke up after " ++ durationStr)), db2)
              else if ["medicine", "medication", "med", "meds"].contains act then
                match jsStr b.medicine with
                | none =>
                  (errJson 400 "Missing required field: medicine (name of the medicine)", db1)
                | some medName =>
                  match db1.medicines.find? (fun m =>
                      m.familyId = familyId && m.active = true &&
                      strToLower m.name = strToLower medName) with
                  | none =>
                    let names := String.intercalate ", "
                      ((db1.medicines.filter (fun m =>
                        m.familyId = familyId && m.active = true)).map (fun m => m.name))
                    (errJson 400
                      ("Medicine \"" ++ medName ++ "\" not found. Available: " ++
                        jsOrStr (some names) "none"), db1)
                  | some med =>
                    let doseAmount :=
                      match jsNum b.amount with
                      | some a => a
                      | none =>
                        match jsNum med.typicalDoseSize with
                        | some d => d
                        | none => 1
                    let doseUnit :=
                      match jsStr b.unit with
                      | some u => some u
                      | none => med.unitAbbr
                    let db2 := { db1 with medicineLogs :=
                      { babyId := babyId, medicineId := med.id,
                        familyId := familyId, time := now,
                        doseAmount := doseAmount, unitAbbr := doseUnit,
                        caretakerId := caretakerId } :: db1.medicineLogs }
                    (okJson (.message
                      ("Logged " ++ med.name ++ " for " ++ babyFirstName ++ ": " ++
                        toString doseAmount ++ " " ++
                        jsOrStr (doseUnit.map (fun u => strToLower u)) "")), db2)
              else
                (errJson 400
                  ("Unknown action: \"" ++ action ++
                    "\". Supported: bottle, breast, diaper, sleep, wake, medicine"), db1)

/-! ## Kindle log route -/

/-- `encodeURIComponent` is an external JavaScript builtin; the claims
never depend on the percent-encoding itself, so it is abstracted as the
identity map on strings. -/
def encodeURIComponent (s : String) : String := s

/-- `redirectWithSuccess` of the kindle log route. -/
def redirectWithSuccess (origin token babyId activity : String) : HttpResponse :=
  .redirect 303 (origin ++ "/kindle/" ++ token ++ "?success=" ++ activity ++
    "&babyId=" ++ babyId)

/-- `redirectWithError` of the kindle log route. -/
def redirectWithError (origin token error : String) : HttpResponse :=
  let path := if token ≠ "" then "/kindle/" ++ token else "/kindle"
  .redirect 303 (origin ++ path ++ "?error=" ++ encodeURIComponent error)

/-- Parsed form data of `POST /api/kindle/log`. -/
structure KindleForm where
  token : Option String
  action : Option String
  babyId : Option String
  amount : Option Nat
  unitAbbr : Option String
  bottleType : Option String
  side : Option String
  type : Option String
  sleepType : Option String
  sleepLogId : Option String
  medicineId : Option String
  doseAmount : Option Nat
deriving Repr, DecidableEq

/-- `POST /api/kindle/log`: standard HTML form submission from the kindle
kiosk page; every outcome, success or error, is a 303 redirect back to the
kindle page. The form argument is `none` when `req.formData()` throws.
`genId` stands for the database-generated id of a created row. -/
def kindleLogPost (db : DB) (now : Nat) (genId : String) (origin : String)
    (form : Option KindleForm) : HttpResponse × DB :=
  match form with
  | none => (redirectWithError origin "" "An error occurred", db)
  | some f =>
    let token := jsOrStr f.token ""
    if token = "" then
      (redirectWithError origin token "Missing authentication token", db)
    else
      let res := validateDeviceToken db now token
      let authResult := res.1
      let db1 := res.2
      if ¬authResult.authenticated ∨ (jsStr authResult.familyId).isNone then
        (redirectWithError origin token (jsOrStr authResult.error "Authentication failed"), db1)
      else
        match jsStr authResult.familyId with
        | none => (redirectWithError origin token "An error occurred", db1)
        | some familyId =>
          let caretakerId := authResult.caretakerId
          match db1.babies.find? (fun b =>
              f.babyId = some b.id && b.familyId = familyId) with
          | none => (redirectWithError origin token "Baby not found", db1)
          | some baby =>
            let babyId := baby.id
            match f.action with
            | some "feed-bottle" =>
              let amount := jsNum f.amount
              let unitAbbr := jsOrStr f.unitAbbr "OZ"
              let bottleType := jsStr f.bottleType
              let db2 := { db1 with feedLogs :=
                { babyId := babyId, familyId := familyId, time := now,
                  type := "BOTTLE", amount := amount,
                  unitAbbr := some unitAbbr, side := none,
                  bottleType := bottleType, caretakerId := caretakerId } :: db1.feedLogs }
              (redirectWithSuccess origin token babyId "feed", db2)
            | some "feed-breast" =>
              let side := jsStr f.side
              let db2 := { db1 with feedLogs :=
                { babyId := babyId, familyId := familyId, time := now,
                  type := "BREAST", amount := none, unitAbbr := none,
                  side := side, bottleType := none,
                  caretakerId := caretakerId } :: db1.feedLogs }
              (redirectWithSuccess origin token babyId "feed", db2)
            | some "diaper" =>
              let dtype := jsOrStr f.type "WET"
              let db2 := { db1 with diaperLogs :=
                { babyId := babyId, familyId := familyId, time := now,
                  type := dtype, caretakerId := caretakerId } :: db1.diaperLogs }
              (redirectWithSuccess origin token babyId "diaper", db2)
            | some "sleep-start" =>
              let sleepType := jsOrStr f.sleepType "NIGHT_SLEEP"
              let db2 := { db1 with sleepLogs :=
                { id := genId, babyId := babyId, familyId := familyId,
                  startTime := now, endTime := none, duration := none,
                  type := sleepType, caretakerId := caretakerId } :: db1.sleepLogs }
              (redirectWithSuccess origin token babyId "sleep-start", db2)
            | some "sleep-end" =>
              let db2 :=
                match jsStr f.sleepLogId with
                | none => db1
                | some sid =>
                  match db1.sleepLogs.find? (fun s =>
                      s.id = sid && s.familyId = familyId) with
                  | none => db1
                  | some sleepLog =>
                    let durationMinutes := roundMinutes now sleepLog.startTime
                    { db1 with sleepLogs :=
                      (db1.sleepLogs.map (fun s =>
                        if s.id = sid then
                          { s with endTime := some now, duration := some durationMinutes }
                        else s)) }
              (redirectWithSuccess origin token babyId "sleep-end", db2)
            | some "medicine" =>
              match jsStr f.medicineId with
              | none => (redirectWithError origin token "Medicine selection required", db1)
              | some medicineId =>
                match db1.medicines.find? (fun m =>
                    m.id = medicineId && m.familyId = familyId && m.active = true) with
                | none => (redirectWithError origin token "Medicine not found", db1)
                | some medicine =>
                  let doseAmount :=
                    match jsNum f.doseAmount with
                    | some d => d
                    | none =>
                      match jsNum medicine.typicalDoseSize with
                      | some d => d
                      | none => 1
                  let medUnitAbbr :=
                    match jsStr f.unitAbbr with
                    | some u => some u
                    | none => medicine.unitAbbr
                  let db2 := { db1 with medicineLogs :=
                    { babyId := babyId, medicineId := medicineId,
                      familyId := familyId, time := now,
                      doseAmount := doseAmount, unitAbbr := medUnitAbbr,
                      caretakerId := caretakerId } :: db1.medicineLogs }
                  (redirectWithSuccess origin token babyId "medicine", db2)
            | _ => (redirectWithError origin token "Unknown action", db1)

/-! ## Well-formedness of the store

The Prisma schema enforces unique ids and token strings, required
relations, and non-empty identifier strings; `wfDB` captures the part of
that used by the theorems. -/

/-- No two list entries share the string key `f`. -/
def nodupBy {α : Type} (f : α → String) : List α → Bool
  | [] => true
  | x :: xs => xs.all (fun y => f y ≠ f x) && nodupBy f xs

/-- Schema-level well-formedness of the store: device-token rows have
unique ids and token strings and intact required relations, identifier
strings are non-empty, sleep-log ids are unique. -/
def wfDB (db : DB) : Bool :=
  nodupBy (fun dt => dt.token) db.deviceTokens &&
  nodupBy (fun dt => dt.id) db.deviceTokens &&
  db.deviceTokens.all (fun dt =>
    db.caretakers.any (fun c => c.id = dt.caretakerId) &&
    db.families.any (fun f => f.id = dt.familyId) &&
    dt.familyId ≠ "" && dt.caretakerId ≠ "" && dt.token ≠ "") &&
  db.families.all (fun f => f.slug ≠ "" && f.id ≠ "") &&
  db.caretakers.all (fun c => c.id ≠ "") &&
  nodupBy (fun s => s.id) db.sleepLogs

theorem nodupBy_cons {α : Type} {f : α → String} {x : α} {xs : List α}
    (h : nodupBy f (x :: xs) = true) :
    (∀ y ∈ xs, f y ≠ f x) ∧ nodupBy f xs = true := by
  simp only [nodupBy, Bool.and_eq_true, List.all_eq_true, decide_not,
    Bool.not_eq_true', decide_eq_false_iff_not] at h
  exact ⟨h.1, h.2⟩

/-- `find?` returns the member `x` whenever every entry satisfying `p`
shares the key of `x` and keys are duplicate-free. -/
theorem find?_eq_some_of_unique {α : Type} (p : α → Bool) (f : α → String) :
    ∀ (l : List α) (x : α), nodupBy f l = true → x ∈ l → p x = true →
      (∀ y, p y = true → f y = f x) → l.find? p = some x := by
  intro l
  induction l with
  | nil => intro x _ hx _ _; cases hx
  | cons z zs ih =>
    intro x hnd hx hpx hkey
    obtain ⟨hne, hnd2⟩ := nodupBy_cons hnd
    cases hpz : p z with
    | true =>
      have hfz : f z = f x := hkey z hpz
      cases hx with
      | head => simp [List.find?_cons, hpz]
      | tail _ hmem => exact absurd hfz.symm (hne x hmem)
    | false =>
      cases hx with
      | head => rw [hpx] at hpz; cases hpz
      | tail _ hmem =>
        simp only [List.find?_cons, hpz]
        exact ih x hnd2 hmem hpx hkey

theorem jsStr_eq_some {o : Option String} {s : String} :
    jsStr o = some s ↔ o = some s ∧ s ≠ "" := by
  cases o with
  | none => simp [jsStr]
  | some t =>
    by_cases h : t = ""
    · subst h
      simp only [jsStr, if_pos rfl]
      constructor
      · intro hc; cases hc
      · rintro ⟨he, hne⟩
        cases he
        exact absurd rfl hne
    · simp only [jsStr, if_neg h, Option.some.injEq]
      constructor
      · intro he; cases he; exact ⟨rfl, h⟩
      · rintro ⟨he, _⟩; cases he; rfl

theorem jsStr_eq_none {o : Option String} :
    jsStr o = none ↔ o = none ∨ o = some "" := by
  cases o with
  | none => simp [jsStr]
  | some t => by_cases h : t = "" <;> simp [jsStr, h]

/-! ## Shared concrete fixtures for witnesses and counterexamples -/

/-- A concrete family row. -/
def fam0 : Family := { id := "fam1", slug := "family-one" }

/-- A concrete admin caretaker. -/
def ct0 : Caretaker :=
  { id := "ct1", loginId := "01", name := "Alice", type := some "parent",
    role := "ADMIN", familyId := some "fam1", deletedAt := none }

/-- A concrete non-admin system caretaker (`loginId` `00`). -/
def ctSys0 : Caretaker :=
  { id := "ct0", loginId := "00", name := "System", type := none,
    role := "USER", familyId := some "fam1", deletedAt := none }

/-- A concrete valid device token row. -/
def dt0 : DeviceToken :=
  { id := "dvt1", token := "devtok1", name := "Kindle", familyId := "fam1",
    caretakerId := "ct1", expiresAt := none, revokedAt := none,
    lastUsedAt := none, createdAt := 5 }

/-- A concrete open account linked to `fam0` and `ct0`. -/
def acc0 : Account :=
  { id := "acc1", closed := false, betaparticipant := false, verified := true,
    trialEnds := none, planExpires := none, planType := some "pro",
    familyId := some "fam1", caretakerId := some "ct1" }

/-- A concrete store. -/
def db0 : DB :=
  { accounts := [acc0], caretakers := [ct0, ctSys0], families := [fam0],
    deviceTokens := [dt0], familySetups := [], babies := [], settings := [],
    medicines := [], sleepLogs := [], feedLogs := [], diaperLogs := [],
    medicineLogs := [] }

/-- A concrete JWT universe: one setup, one account, one regular admin,
one regular system-caretaker and one magic-link style token. -/
def jenv0 : JwtEnv :=
  { tokens := [
      { str := "jwt-setup", payload := .setup "stok1", exp := none, validSig := true },
      { str := "jwt-acct", payload := .account "acc1" "a@b.c", exp := none,
        validSig := true },
      { str := "jwt-reg",
        payload := .regular "ct1" "Alice" (some "parent") "ADMIN" (some "fam1")
          (some "family-one") false none,
        exp := some 100, validSig := true },
      { str := "jwt-sys",
        payload := .regular "ct0" "System" none "USER" (some "fam1")
          (some "family-one") false none,
        exp := none, validSig := true },
      { str := "jwt-magic",
        payload := .regular "ct1" "Alice" (some "parent") "ADMIN" (some "fam1")
          (some "family-one") false (some "DEVICE_TOKEN"),
        exp := none, validSig := true } ] }

/-- A concrete environment (self-hosted deployment). -/
def env0 : Env := { deploymentMode := "selfhosted" }

/-- A request presenting the given Authorization header. -/
def mkReq (h : Option String) : Request :=
  { authHeader := h, cookieCaretakerId := none,
    url := { pathname := "/api/device-tokens", queryFamilyId := none,
             queryId := none, origin := "http://host" },
    referer := none }

/-! ## C5 — withAuth -/

/-- C5: for every request and handler, the `withAuth` wrapper returns
status 401 with body success false / error "Authentication required"
exactly when `getAuthenticatedUser` rejects the request, and otherwise
returns the wrapped handler response unchanged. -/
theorem withAuth_spec (handler : Request → HttpResponse) (env : Env)
    (jenv : JwtEnv) (db : DB) (bl : Blacklist) (now : Nat) (req : Request) :
    ((getAuthenticatedUser env jenv db bl now req).authenticated = false →
      withAuth handler env jenv db bl now req =
        errJson 401 "Authentication required") ∧
    ((getAuthenticatedUser env jenv db bl now req).authenticated = true →
      withAuth handler env jenv db bl now req = handler req) := by
  unfold withAuth
  constructor <;> intro h <;> simp [h]

/-- Witness for C5 at a concrete rejected request (no credentials). -/
theorem withAuth_spec_witness :
    withAuth (fun _ => okJson .empty) env0 jenv0 db0 [] 1000 (mkReq none) =
      errJson 401 "Authentication required" :=
  (withAuth_spec (fun _ => okJson .empty) env0 jenv0 db0 [] 1000
    (mkReq none)).1 (by decide)

/-! ## C8 — withAdminAuth -/

/-- `isSystemCaretakerCheck` holds exactly when the identifier names a
non-deleted caretaker with `loginId` `00` (given caretaker ids are
non-empty). -/
theorem isSystemCaretakerCheck_iff (db : DB) (caretakerId : Option String)
    (hids : ∀ c ∈ db.caretakers, c.id ≠ "") :
    isSystemCaretakerCheck db caretakerId = true ↔
      ∃ c ∈ db.caretakers, caretakerId = some c.id ∧ c.loginId = "00" ∧
        c.deletedAt = none := by
  unfold isSystemCaretakerCheck
  cases hj : jsStr caretakerId with
  | none =>
    constructor
    · intro hc; cases hc
    · rintro ⟨c, hc, hid, _, _⟩
      have hsome : jsStr caretakerId = some c.id :=
        jsStr_eq_some.mpr ⟨hid, hids c hc⟩
      rw [hj] at hsome
      cases hsome
  | some cid =>
    obtain ⟨hid, _⟩ := jsStr_eq_some.mp hj
    simp only [List.find?_isSome]
    constructor
    · rintro ⟨c, hc, hp⟩
      simp only [Bool.and_eq_true, decide_eq_true_eq,
        Option.isNone_iff_eq_none] at hp
      exact ⟨c, hc, by rw [hid, hp.1.1], hp.1.2, hp.2⟩
    · rintro ⟨c, hc, hcid, hlog, hdel⟩
      refine ⟨c, hc, ?_⟩
      have hcc : c.id = cid := by
        rw [hid] at hcid
        injection hcid with h
        exact h.symm
      simp [hcc, hlog, hdel]

/-- C8: for every authenticated request, the `withAdminAuth` wrapper calls
the wrapped handler exactly when the caretaker role is ADMIN, or the
caller is a system administrator, or the caretaker id names a non-deleted
caretaker whose `loginId` is `00`; in every other authenticated case it
returns status 403 with error "Admin access required". -/
theorem withAdminAuth_spec (handler : Request → HttpResponse) (env : Env)
    (jenv : JwtEnv) (db : DB) (bl : Blacklist) (now : Nat) (req : Request)
    (hwf : ∀ c ∈ db.caretakers, c.id ≠ "")
    (hauth : (getAuthenticatedUser env jenv db bl now req).authenticated = true) :
    (((getAuthenticatedUser env jenv db bl now req).caretakerRole = some "ADMIN" ∨
      (getAuthenticatedUser env jenv db bl now req).isSysAdmin = true ∨
      (∃ c ∈ db.caretakers,
        (getAuthenticatedUser env jenv db bl now req).caretakerId = some c.id ∧
        c.loginId = "00" ∧ c.deletedAt = none)) →
      withAdminAuth handler env jenv db bl now req = handler req) ∧
    ((¬ ((getAuthenticatedUser env jenv db bl now req).caretakerRole = some "ADMIN" ∨
      (getAuthenticatedUser env jenv db bl now req).isSysAdmin = true ∨
      (∃ c ∈ db.caretakers,
        (getAuthenticatedUser env jenv db bl now req).caretakerId = some c.id ∧
        c.loginId = "00" ∧ c.deletedAt = none))) →
      withAdminAuth handler env jenv db bl now req =
        errJson 403 "Admin access required") := by
  have hsys := isSystemCaretakerCheck_iff db
    (getAuthenticatedUser env jenv db bl now req).caretakerId hwf
  unfold withAdminAuth
  simp only [hauth, Bool.not_true, if_false, Bool.false_eq_true]
  constructor
  · intro hcond
    rw [if_neg]
    rintro ⟨h1, h2, h3⟩
    rcases hcond with hr | hs | hex
    · exact h1 hr
    · rw [hs] at h3; cases h3
    · rw [hsys.mpr hex] at h2; cases h2
  · intro hncond
    rw [if_pos]
    push_neg at hncond
    obtain ⟨h1, h2, h3⟩ := hncond
    refine ⟨h1, ?_, ?_⟩
    · cases hc : isSystemCaretakerCheck db
        (getAuthenticatedUser env jenv db bl now req).caretakerId with
      | false => rfl
      | true =>
        obtain ⟨c, hcm, hid, hlog, hdel⟩ := hsys.mp hc
        exact absurd hdel (h3 c hcm hid hlog)
    · cases hb : (getAuthenticatedUser env jenv db bl now req).isSysAdmin with
      | false => rfl
      | true => exact absurd hb h2

/-- Witness for C8: the concrete system caretaker (`loginId` `00`, role
USER) is granted admin access. -/
theorem withAdminAuth_spec_witness :
    withAdminAuth (fun _ => okJson .empty) env0 jenv0 db0 [] 1000
      (mkReq (some "Bearer jwt-sys")) = okJson .empty :=
  (withAdminAuth_spec (fun _ => okJson .empty) env0 jenv0 db0 [] 1000
    (mkReq (some "Bearer jwt-sys")) (by decide) (by decide)).1
    (Or.inr (Or.inr ⟨ctSys0, by decide, by decide, by decide, by decide⟩))

/-! ## C2 — validateDeviceToken -/

/-- Unpacked form of `wfDB`. -/
theorem wfDB_spec (db : DB) (h : wfDB db = true) :
    nodupBy (fun dt => dt.token) db.deviceTokens = true ∧
    nodupBy (fun dt => dt.id) db.deviceTokens = true ∧
    (∀ dt ∈ db.deviceTokens,
      (∃ c ∈ db.caretakers, c.id = dt.caretakerId) ∧
      (∃ f ∈ db.families, f.id = dt.familyId) ∧
      dt.familyId ≠ "" ∧ dt.caretakerId ≠ "" ∧ dt.token ≠ "") ∧
    (∀ f ∈ db.families, f.slug ≠ "" ∧ f.id ≠ "") ∧
    (∀ c ∈ db.caretakers, c.id ≠ "") ∧
    nodupBy (fun s => s.id) db.sleepLogs = true := by
  simp only [wfDB, Bool.and_eq_true, List.all_eq_true, List.any_eq_true,
    decide_eq_true_eq] at h
  obtain ⟨⟨⟨⟨⟨h1, h2⟩, h3⟩, h4⟩, h5⟩, h6⟩ := h
  refine ⟨h1, h2, ?_, ?_, ?_, h6⟩
  · intro dt hdt
    obtain ⟨⟨⟨⟨hc, hf⟩, hfid⟩, hcid⟩, htok⟩ := h3 dt hdt
    exact ⟨hc, hf, hfid, hcid, htok⟩
  · intro f hf
    exact h4 f hf
  · intro c hc
    exact h5 c hc

/-- C2: `validateDeviceToken` rejects exactly the unknown, revoked or
expired token strings; in every other case it authenticates with the
rows family id, caretaker id, the caretakers type and role, the family
slug, `isSysAdmin` false and auth type DEVICE_TOKEN. -/
theorem validateDeviceToken_spec (db : DB) (now : Nat) (token : String)
    (hwf : wfDB db = true) :
    ((validateDeviceToken db now token).1.authenticated = false ↔
      (∀ dt ∈ db.deviceTokens, dt.token ≠ token) ∨
      (∃ dt ∈ db.deviceTokens, dt.token = token ∧
        (dt.revokedAt ≠ none ∨ ∃ e, dt.expiresAt = some e ∧ now > e))) ∧
    (∀ dt ∈ db.deviceTokens, dt.token = token → dt.revokedAt = none →
      (∀ e, dt.expiresAt = some e → ¬ now > e) →
      ∃ ct ∈ db.caretakers, ct.id = dt.caretakerId ∧
      ∃ fam ∈ db.families, fam.id = dt.familyId ∧
      (validateDeviceToken db now token).1 =
        { authenticated := true,
          caretakerId := some dt.caretakerId,
          caretakerType := ct.type,
          caretakerRole := some ct.role,
          familyId := some dt.familyId,
          familySlug := some fam.slug,
          isSysAdmin := false,
          authType := some "DEVICE_TOKEN" }) := by
  obtain ⟨hTok, hId, hRel, hFam, hCt, hSl⟩ := wfDB_spec db hwf
  constructor
  · cases hf : db.deviceTokens.find? (fun dt => dt.token = token) with
    | none =>
      have hnone := List.find?_eq_none.mp hf
      simp only [validateDeviceToken, hf]
      constructor
      · intro _
        left
        intro dt hdt
        have := hnone dt hdt
        simpa using this
      · intro _; trivial
    | some dt =>
      have hmem := List.mem_of_find?_eq_some hf
      have htok : dt.token = token := by
        have := List.find?_some hf
        simpa using this
      simp only [validateDeviceToken, hf]
      cases hrev : dt.revokedAt with
      | some r =>
        simp only [Option.isSome_some, if_true]
        constructor
        · intro _
          right
          exact ⟨dt, hmem, htok, Or.inl (by rw [hrev]; exact fun hc => by cases hc)⟩
        · intro _; trivial
      | none =>
        simp only [Option.isSome_none, Bool.false_eq_true, if_false]
        cases hexp : dt.expiresAt.any (fun e => now > e) with
        | true =>
          simp only [if_true]
          have hex : ∃ e, dt.expiresAt = some e ∧ now > e := by
            cases he : dt.expiresAt with
            | none => rw [he] at hexp; cases hexp
            | some e =>
              rw [he] at hexp
              simp only [Option.any_some, decide_eq_true_eq] at hexp
              exact ⟨e, rfl, hexp⟩
          constructor
          · intro _
            right
            exact ⟨dt, hmem, htok, Or.inr hex⟩
          · intro _; trivial
        | false =>
          simp only [Bool.false_eq_true, if_false]
          obtain ⟨⟨c, hcmem, hcid⟩, ⟨f, hfmem, hfid⟩, _, _, _⟩ := hRel dt hmem
          cases hcf : db.caretakers.find? (fun x => x.id = dt.caretakerId) with
          | none =>
            have := List.find?_eq_none.mp hcf c hcmem
            simp [hcid] at this
          | some ct =>
            simp only
            constructor
            · intro hcontra; cases hcontra
            · rintro (hall | ⟨dt2, hdt2, htok2, hbad⟩)
              · exact absurd htok (hall dt hmem)
              · have : dt2 = dt := by
                  have h1 : db.deviceTokens.find?
                      (fun x => x.token = token) = some dt2 :=
                    find?_eq_some_of_unique _ (fun x => x.token) db.deviceTokens
                      dt2 hTok hdt2 (by simpa using htok2)
                      (fun y hy => by
                        have hyt : y.token = token := by simpa using hy
                        show y.token = dt2.token
                        rw [hyt, htok2])
                  rw [hf] at h1
                  injection h1 with h1
                  exact h1.symm
                subst this
                rcases hbad with hb | ⟨e, he, hne⟩
                · exact absurd hrev hb
                · rw [he] at hexp
                  simp only [Option.any_some, decide_eq_true_eq] at hexp
                  exact absurd hne (by simpa using hexp)
  · intro dt hmem htok hrev hexp
    have hf : db.deviceTokens.find? (fun x => x.token = token) = some dt :=
      find?_eq_some_of_unique _ (fun x => x.token) db.deviceTokens dt hTok hmem
        (by simpa using htok)
        (fun y hy => by
          have hyt : y.token = token := by simpa using hy
          show y.token = dt.token
          rw [hyt, htok])
    obtain ⟨⟨c, hcmem, hcid⟩, ⟨f, hfmem, hfid⟩, _, _, _⟩ := hRel dt hmem
    have hexp2 : dt.expiresAt.any (fun e => now > e) = false := by
      cases he : dt.expiresAt with
      | none => rfl
      | some e =>
        simp only [Option.any_some, decide_eq_false_iff_not]
        exact hexp e he
    cases hcf : db.caretakers.find? (fun x => x.id = dt.caretakerId) with
    | none =>
      have := List.find?_eq_none.mp hcf c hcmem
      simp [hcid] at this
    | some ct =>
      have hctmem := List.mem_of_find?_eq_some hcf
      have hctid : ct.id = dt.caretakerId := by
        have := List.find?_some hcf
        simpa using this
      cases hff : db.families.find? (fun x => x.id = dt.familyId) with
      | none =>
        have := List.find?_eq_none.mp hff f hfmem
        simp [hfid] at this
      | some fam =>
        have hfammem := List.mem_of_find?_eq_some hff
        have hfamid : fam.id = dt.familyId := by
          have := List.find?_some hff
          simpa using this
        have hslug : fam.slug ≠ "" := (hFam fam hfammem).1
        refine ⟨ct, hctmem, hctid, fam, hfammem, hfamid, ?_⟩
        simp only [validateDeviceToken, hf, hrev, Option.isSome_none,
          Bool.false_eq_true, if_false, hexp2, hcf, hff]
        simp [jsStr, hslug]

/-- Witness for C2 at the concrete valid device token. -/
theorem validateDeviceToken_spec_witness :
    ∃ ct ∈ db0.caretakers, ct.id = dt0.caretakerId ∧
    ∃ fam ∈ db0.families, fam.id = dt0.familyId ∧
    (validateDeviceToken db0 1000 "devtok1").1 =
      { authenticated := true,
        caretakerId := some dt0.caretakerId,
        caretakerType := ct.type,
        caretakerRole := some ct.role,
        familyId := some dt0.familyId,
        familySlug := some fam.slug,
        isSysAdmin := false,
        authType := some "DEVICE_TOKEN" } :=
  (validateDeviceToken_spec db0 1000 "devtok1" (by decide)).2 dt0 (by decide)
    (by decide) (by decide) (fun e he => by simp [dt0] at he)

/-! ## C4 — device-token revocation -/

/-- `find?` commutes with mapping a row transformation that does not
change the tested predicate. -/
theorem find?_map_comm {α : Type} (g : α → α) (p : α → Bool)
    (h : ∀ x, p (g x) = p x) (l : List α) :
    (l.map g).find? p = (l.find? p).map g := by
  induction l with
  | nil => rfl
  | cons z zs ih =>
    simp only [List.map_cons, List.find?_cons, h z]
    cases p z <;> simp [ih]

/-- C4: a DELETE on a device token of the requesting admins family
succeeds and makes every subsequent `validateDeviceToken` on that token
string fail with "Device token has been revoked"; a DELETE whose id names
no device token of the family returns 404 and changes nothing. -/
theorem handleDelete_spec (db : DB) (now : Nat) (ctx : AuthResult)
    (id fid : String)
    (hwf : wfDB db = true)
    (hadmin : ctx.caretakerRole = some "ADMIN" ∨ ctx.isSysAdmin = true)
    (hfam : ctx.familyId = some fid) (hfid : fid ≠ "") (hid : id ≠ "") :
    (∀ dt ∈ db.deviceTokens, dt.id = id → dt.familyId = fid →
      (handleDelete db now (some id) ctx).1 = okJson .empty ∧
      ∀ now2,
        (validateDeviceToken (handleDelete db now (some id) ctx).2 now2 dt.token).1 =
          { authenticated := false,
            error := some "Device token has been revoked" }) ∧
    ((∀ dt ∈ db.deviceTokens, ¬ (dt.id = id ∧ dt.familyId = fid)) →
      (handleDelete db now (some id) ctx).1 = errJson 404 "Device token not found" ∧
      (handleDelete db now (some id) ctx).2 = db) := by
  obtain ⟨hTok, hId, hRel, hFam, hCt, hSl⟩ := wfDB_spec db hwf
  have hNotAdminFalse : ¬ (ctx.caretakerRole ≠ some "ADMIN" ∧ ¬ctx.isSysAdmin = true) := by
    rintro ⟨h1, h2⟩
    rcases hadmin with hr | hs
    · exact h1 hr
    · exact h2 hs
  have hjsfam : jsStr ctx.familyId = some fid := jsStr_eq_some.mpr ⟨hfam, hfid⟩
  have hjsid : jsStr (some id) = some id := jsStr_eq_some.mpr ⟨rfl, hid⟩
  constructor
  · intro dt hmem hdid hdfid
    have hfind : db.deviceTokens.find? (fun x => x.id = id && x.familyId = fid) =
        some dt := by
      apply find?_eq_some_of_unique _ (fun x => x.id) db.deviceTokens dt hId hmem
      · simp [hdid, hdfid]
      · intro y hy
        simp only [Bool.and_eq_true, decide_eq_true_eq] at hy
        show y.id = dt.id
        rw [hy.1, hdid]
    have hres : handleDelete db now (some id) ctx =
        (okJson .empty,
         { db with deviceTokens := db.deviceTokens.map (fun x =>
             if x.id = id then { x with revokedAt := some now } else x) }) := by
      unfold handleDelete
      rw [if_neg hNotAdminFalse]
      simp only [hjsfam, hjsid, hfind]
    refine ⟨by rw [hres], ?_⟩
    intro now2
    rw [hres]
    have hmap : (db.deviceTokens.map (fun x =>
        if x.id = id then { x with revokedAt := some now } else x)).find?
          (fun x => x.token = dt.token) =
        some { dt with revokedAt := some now } := by
      rw [find?_map_comm _ _ (fun x => by by_cases hx : x.id = id <;> simp [hx])]
      have : db.deviceTokens.find? (fun x => x.token = dt.token) = some dt := by
        apply find?_eq_some_of_unique _ (fun x => x.token) db.deviceTokens dt hTok hmem
        · simp
        · intro y hy
          simpa using hy
      rw [this]
      simp [hdid]
    simp only [validateDeviceToken, hmap, Option.isSome_some, if_true]
  · intro hnone
    have hfind : db.deviceTokens.find? (fun x => x.id = id && x.familyId = fid) =
        none := by
      apply List.find?_eq_none.mpr
      intro x hx
      simp only [Bool.and_eq_true, decide_eq_true_eq, not_and]
      intro h1 h2
      exact hnone x hx ⟨h1, h2⟩
    have hres : handleDelete db now (some id) ctx =
        (errJson 404 "Device token not found", db) := by
      unfold handleDelete
      rw [if_neg hNotAdminFalse]
      simp only [hjsfam, hjsid, hfind]
    exact ⟨by rw [hres], by rw [hres]⟩

/-- Witness for C4: revoking the concrete device token makes its string
invalid, and a DELETE with an unknown id is a 404 no-op. -/
theorem handleDelete_spec_witness :
    ((handleDelete db0 2000 (some "dvt1")
        { authenticated := true, caretakerRole := some "ADMIN",
          familyId := some "fam1" }).1 = okJson .empty ∧
      (validateDeviceToken (handleDelete db0 2000 (some "dvt1")
          { authenticated := true, caretakerRole := some "ADMIN",
            familyId := some "fam1" }).2 3000 "devtok1").1 =
        { authenticated := false,
          error := some "Device token has been revoked" }) ∧
    ((handleDelete db0 2000 (some "missing")
        { authenticated := true, caretakerRole := some "ADMIN",
          familyId := some "fam1" }).1 = errJson 404 "Device token not found") := by
  have h1 := (handleDelete_spec db0 2000
    { authenticated := true, caretakerRole := some "ADMIN",
      familyId := some "fam1" } "dvt1" "fam1" (by decide)
    (Or.inl rfl) rfl (by decide) (by decide)).1 dt0 (by decide) rfl rfl
  have h2 := (handleDelete_spec db0 2000
    { authenticated := true, caretakerRole := some "ADMIN",
      familyId := some "fam1" } "missing" "fam1" (by decide)
    (Or.inl rfl) rfl (by decide) (by decide)).2
    (by intro dt hdt hc; simp [db0, dt0] at hdt; rw [hdt] at hc; simp [dt0] at hc)
  exact ⟨⟨h1.1, h1.2 3000⟩, h2.1⟩

/-! ## C1 — account-token expiration flag -/

theorem computeIsExpired_eq_true_iff (gate : Bool) (te pe : Option Nat)
    (pt : Option String) (now : Nat) :
    computeIsExpired gate te pe pt now = true ↔
      gate = true ∧
        ((∃ a, te = some a ∧ now > a) ∨
         (te = none ∧ ∃ b, pe = some b ∧ now > b) ∨
         (te = none ∧ pe = none ∧ (pt = none ∨ pt = some ""))) := by
  unfold computeIsExpired
  cases gate <;> cases te <;> cases pe <;>
    rcases pt with _ | s <;>
      simp [Option.isNone_iff_eq_none, jsStr_eq_none]

/-- In the account branch, `isExpired` is always returned and always equal
to the shared expiration computation. -/
theorem accountAuth_isExpired (env : Env) (db : DB) (now : Nat)
    (aid email : String) (account : Account)
    (hacct : db.accounts.find? (fun a => a.id = aid) = some account)
    (hclosed : account.closed = false) :
    (accountAuth env db now aid email).isExpired =
      some (computeIsExpired
        (decide (env.deploymentMode = "saas") && (accountFamily db account).isSome &&
          !account.betaparticipant)
        account.trialEnds account.planExpires account.planType now) := by
  unfold accountAuth
  simp only [hacct, hclosed, Bool.false_eq_true, if_false]
  cases account.caretakerId.bind
      (fun cid => db.caretakers.find? (fun c => c.id = cid)) with
  | some ct => rfl
  | none =>
    cases hf : accountFamily db account with
    | none => simp [hf]
    | some f => simp [hf]

/-- Counterexample to C1: an account whose `planType` is the empty string
(set, hence not "unset") with no trial and no plan expiry is marked
expired in SAAS mode — the code tests `!account.planType`, which is also
true of an empty string — where the claim requires `isExpired` false for
every configuration other than all three fields unset. -/
theorem getAuthenticatedUser_empty_planType_expired :
    (getAuthenticatedUser { deploymentMode := "saas" } jenv0
        { db0 with accounts := [{ acc0 with planType := some "" }] }
        [] 1000 (mkReq (some "Bearer jwt-acct"))).isExpired = some true ∧
    ({ acc0 with planType := some "" } : Account).planType ≠ none ∧
    ({ acc0 with planType := some "" } : Account).trialEnds = none ∧
    ({ acc0 with planType := some "" } : Account).planExpires = none :=
  ⟨by decide, by decide, by decide, by decide⟩

/-- Amended C1: for an account-token request in SAAS mode where the
account has a family and is not a beta participant, `isExpired` is true
exactly when the trial has ended, or (with no trial) the plan has expired,
or trial and plan expiry are absent and the plan type is absent or the
empty string (the JavaScript-falsy test `!account.planType`); in every
other configuration `isExpired` is false. -/
theorem getAuthenticatedUser_account_isExpired (env : Env) (jenv : JwtEnv)
    (db : DB) (bl : Blacklist) (now : Nat) (req : Request)
    (t aid email : String) (account : Account)
    (hext : extractBearer req.authHeader = some t)
    (hbl : blHas bl t = false)
    (hver : jwtVerify jenv now t = some (.account aid email))
    (hacct : db.accounts.find? (fun a => a.id = aid) = some account)
    (hclosed : account.closed = false) :
    ((env.deploymentMode = "saas" ∧ (accountFamily db account).isSome = true ∧
        account.betaparticipant = false) →
      ((getAuthenticatedUser env jenv db bl now req).isExpired = some true ↔
        (∃ te, account.trialEnds = some te ∧ now > te) ∨
        (account.trialEnds = none ∧
          ∃ pe, account.planExpires = some pe ∧ now > pe) ∨
        (account.trialEnds = none ∧ account.planExpires = none ∧
          (account.planType = none ∨ account.planType = some "")))) ∧
    ((¬ env.deploymentMode = "saas" ∨ account.betaparticipant = true ∨
        accountFamily db account = none ∨
        (∃ te, account.trialEnds = some te ∧ ¬ now > te)) →
      (getAuthenticatedUser env jenv db bl now req).isExpired = some false) := by
  have hacc : getAuthenticatedUser env jenv db bl now req =
      accountAuth env db now aid email := by
    unfold getAuthenticatedUser
    simp only [hext, hbl, hver, Bool.false_eq_true, if_false]
  rw [hacc, accountAuth_isExpired env db now aid email account hacct hclosed]
  constructor
  · rintro ⟨hsaas, hfam, hbeta⟩
    rw [show (decide (env.deploymentMode = "saas") &&
        (accountFamily db account).isSome && !account.betaparticipant) = true by
      simp [hsaas, hfam, hbeta]]
    rw [Option.some_inj]
    rw [computeIsExpired_eq_true_iff]
    simp
  · intro hother
    rw [Option.some_inj]
    rcases hother with hs | hb | hf | ⟨te, hte, hnow⟩
    · simp [computeIsExpired, hs]
    · simp [computeIsExpired, hb]
    · simp [computeIsExpired, hf]
    · cases hg : (decide (env.deploymentMode = "saas") &&
          (accountFamily db account).isSome && !account.betaparticipant) with
      | false => simp [computeIsExpired]
      | true => simp [computeIsExpired, hte, hnow]

/-- Witness for C1: in SAAS mode with an ended trial the flag is true. -/
theorem getAuthenticatedUser_account_isExpired_witness :
    (getAuthenticatedUser { deploymentMode := "saas" } jenv0
        { db0 with accounts := [{ acc0 with trialEnds := some 500 }] }
        [] 1000 (mkReq (some "Bearer jwt-acct"))).isExpired = some true :=
  ((getAuthenticatedUser_account_isExpired { deploymentMode := "saas" } jenv0
      { db0 with accounts := [{ acc0 with trialEnds := some 500 }] }
      [] 1000 (mkReq (some "Bearer jwt-acct")) "jwt-acct" "acc1" "a@b.c"
      { acc0 with trialEnds := some 500 }
      (by decide) (by decide) (by decide) (by decide) (by decide)).1
    ⟨rfl, by decide, rfl⟩).mpr (Or.inl ⟨500, rfl, by decide⟩)

/-! ## C6 — blacklist invalidation and cleanup -/

/-- C6: invalidating a JWT that carries an `exp` claim succeeds, and as
long as every cleanup run happens no later than the stored expiry
(`exp * 1000` ms), any request bearing that token keeps being rejected
with "Token has been invalidated"; moreover a cleanup run removes exactly
the entries whose stored expiry lies strictly in the past. -/
theorem invalidateToken_blacklist_spec (jenv : JwtEnv) (bl : Blacklist)
    (t : String) (e : Nat)
    (hdec : jwtDecode jenv t = some (some e)) (hne : e ≠ 0) :
    (invalidateToken jenv bl t).1 = true ∧
    (∀ times : List Nat, (∀ τ ∈ times, τ ≤ e * 1000) →
      ∀ (env : Env) (db : DB) (now : Nat) (req : Request),
        extractBearer req.authHeader = some t →
        getAuthenticatedUser env jenv db
          (times.foldl (fun acc τ => cleanupBlacklist τ acc)
            (invalidateToken jenv bl t).2)
          now req =
          { authenticated := false, error := some "Token has been invalidated" }) ∧
    (∀ (now2 : Nat) (bl2 : Blacklist) (entry : String × Nat),
      entry ∈ cleanupBlacklist now2 bl2 ↔ entry ∈ bl2 ∧ ¬ now2 > entry.2) := by
  have hinv : invalidateToken jenv bl t = (true, blSet bl t (e * 1000)) := by
    unfold invalidateToken
    rw [hdec]
    simp [hne]
  refine ⟨by rw [hinv], ?_, ?_⟩
  · have hkeep : ∀ (times : List Nat), (∀ τ ∈ times, τ ≤ e * 1000) →
        ∀ b : Blacklist, (t, e * 1000) ∈ b →
        (t, e * 1000) ∈ times.foldl (fun acc τ => cleanupBlacklist τ acc) b := by
      intro times
      induction times with
      | nil => exact fun _ b hb => hb
      | cons τ ts ih =>
        intro hle b hb
        simp only [List.foldl_cons]
        apply ih (fun x hx => hle x (List.mem_cons_of_mem _ hx))
        unfold cleanupBlacklist
        apply List.mem_filter.mpr
        refine ⟨hb, ?_⟩
        have := hle τ (List.mem_cons_self _ _)
        simp only [decide_eq_true_eq, not_lt]
        omega
    intro times hle env db now req hext
    have hmem : (t, e * 1000) ∈
        times.foldl (fun acc τ => cleanupBlacklist τ acc)
          (invalidateToken jenv bl t).2 := by
      apply hkeep times hle
      rw [hinv]
      exact List.mem_cons_self _ _
    have hhas : blHas (times.foldl (fun acc τ => cleanupBlacklist τ acc)
        (invalidateToken jenv bl t).2) t = true := by
      apply List.any_eq_true.mpr
      exact ⟨(t, e * 1000), hmem, by simp⟩
    unfold getAuthenticatedUser
    simp only [hext, hhas, if_true]
  · intro now2 bl2 entry
    unfold cleanupBlacklist
    rw [List.mem_filter]
    simp

/-- Witness for C6: the regular token with `exp` 100 is blacklisted until
100000 ms; after a cleanup at 100000 ms a request bearing it is still
rejected, and the cleanup characterization holds on a sample entry. -/
theorem invalidateToken_blacklist_spec_witness :
    (invalidateToken jenv0 [] "jwt-reg").1 = true ∧
    getAuthenticatedUser env0 jenv0 db0
      ([100000].foldl (fun acc τ => cleanupBlacklist τ acc)
        (invalidateToken jenv0 [] "jwt-reg").2)
      99000 (mkReq (some "Bearer jwt-reg")) =
      { authenticated := false, error := some "Token has been invalidated" } ∧
    (("jwt-reg", 100000) ∈ cleanupBlacklist 100001 [("jwt-reg", 100000)] ↔
      ("jwt-reg", 100000) ∈ [("jwt-reg", 100000)] ∧ ¬ (100001 : Nat) > 100000) := by
  obtain ⟨h1, h2, h3⟩ :=
    invalidateToken_blacklist_spec jenv0 [] "jwt-reg" 100 (by decide) (by decide)
  exact ⟨h1,
    h2 [100000] (by intro τ hτ; simp at hτ; omega) env0 db0 99000
      (mkReq (some "Bearer jwt-reg")) (by decide),
    h3 100001 [("jwt-reg", 100000)] ("jwt-reg", 100000)⟩

/-! ## C7 — token-kind branching of getAuthenticatedUser -/

/-- Counterexample to C7: the concrete device token is valid —
`validateDeviceToken` accepts it with auth type DEVICE_TOKEN — yet
`getAuthenticatedUser`, handed the very request that presents that token
as the bearer credential, rejects it as an invalid JWT: the resolver has
no device-token branch. -/
theorem getAuthenticatedUser_no_device_branch :
    (validateDeviceToken db0 1000 "devtok1").1.authenticated = true ∧
    (validateDeviceToken db0 1000 "devtok1").1.authType = some "DEVICE_TOKEN" ∧
    getAuthenticatedUser env0 jenv0 db0 [] 1000 (mkReq (some "Bearer devtok1")) =
      { authenticated := false, error := some "Invalid or expired token" } :=
  ⟨by decide, by decide, by decide⟩

/-- Amended C7: `getAuthenticatedUser` branches on three token kinds —
setup, account and regular caretaker — each witnessed by an authenticated
request; device tokens are validated by the separate `validateDeviceToken`
function (not by a `getAuthenticatedUser` branch), and reach the resolver
only indirectly as magic-link JWTs that authenticate through the regular
branch carrying auth type DEVICE_TOKEN. -/
theorem getAuthenticatedUser_branches :
    ((getAuthenticatedUser env0 jenv0 db0 [] 1000
        (mkReq (some "Bearer jwt-setup"))).authenticated = true ∧
     (getAuthenticatedUser env0 jenv0 db0 [] 1000
        (mkReq (some "Bearer jwt-setup"))).isSetupAuth = true) ∧
    ((getAuthenticatedUser env0 jenv0 db0 [] 1000
        (mkReq (some "Bearer jwt-acct"))).authenticated = true ∧
     (getAuthenticatedUser env0 jenv0 db0 [] 1000
        (mkReq (some "Bearer jwt-acct"))).isAccountAuth = true) ∧
    ((getAuthenticatedUser env0 jenv0 db0 [] 1000
        (mkReq (some "Bearer jwt-reg"))).authenticated = true ∧
     (getAuthenticatedUser env0 jenv0 db0 [] 1000
        (mkReq (some "Bearer jwt-reg"))).authType = some "CARETAKER") ∧
    ((validateDeviceToken db0 1000 "devtok1").1.authenticated = true ∧
     (validateDeviceToken db0 1000 "devtok1").1.authType = some "DEVICE_TOKEN") ∧
    ((getAuthenticatedUser env0 jenv0 db0 [] 1000
        (mkReq (some "Bearer devtok1"))).authenticated = false) ∧
    ((getAuthenticatedUser env0 jenv0 db0 [] 1000
        (mkReq (some "Bearer jwt-magic"))).authenticated = true ∧
     (getAuthenticatedUser env0 jenv0 db0 [] 1000
        (mkReq (some "Bearer jwt-magic"))).authType = some "DEVICE_TOKEN") := by
  refine ⟨⟨?_, ?_⟩, ⟨?_, ?_⟩, ⟨?_, ?_⟩, ⟨?_, ?_⟩, ?_, ⟨?_, ?_⟩⟩ <;> decide

/-! ## C9 — masked device-token listing -/

theorem mem_insertByCreatedAtDesc {x y : DeviceToken} {l : List DeviceToken} :
    y ∈ insertByCreatedAtDesc x l ↔ y = x ∨ y ∈ l := by
  induction l with
  | nil => simp [insertByCreatedAtDesc]
  | cons z zs ih =>
    unfold insertByCreatedAtDesc
    by_cases h : x.createdAt ≤ z.createdAt <;> simp [h, ih] <;> tauto

theorem mem_sortByCreatedAtDesc {y : DeviceToken} {l : List DeviceToken} :
    y ∈ sortByCreatedAtDesc l ↔ y ∈ l := by
  induction l with
  | nil => simp [sortByCreatedAtDesc]
  | cons z zs ih => simp [sortByCreatedAtDesc, mem_insertByCreatedAtDesc, ih]

/-- When every listed token has its caretaker row, the masking map
succeeds and every produced entry is the mask of a listed row. -/
theorem maskTokens_spec (db : DB) (now : Nat) :
    ∀ l : List DeviceToken,
      (∀ t ∈ l, ∃ c ∈ db.caretakers, c.id = t.caretakerId) →
      ∃ entries, maskTokens db now l = some entries ∧
        ∀ m ∈ entries, ∃ t ∈ l, ∃ cname, m = maskToken now cname t := by
  intro l
  induction l with
  | nil => intro _; exact ⟨[], rfl, by simp⟩
  | cons x xs ih =>
    intro hrel
    obtain ⟨c, hc, hcid⟩ := hrel x (List.mem_cons_self _ _)
    cases hcf : db.caretakers.find? (fun cc => cc.id = x.caretakerId) with
    | none =>
      have := List.find?_eq_none.mp hcf c hc
      simp [hcid] at this
    | some cc =>
      obtain ⟨es, hes, hall⟩ := ih (fun t ht => hrel t (List.mem_cons_of_mem _ ht))
      refine ⟨maskToken now cc.name x :: es, ?_, ?_⟩
      · unfold maskTokens
        rw [hcf, hes]
        rfl
      · intro m hm
        rcases List.mem_cons.mp hm with hm1 | hm2
        · exact ⟨x, List.mem_cons_self _ _, cc.name, hm1⟩
        · obtain ⟨t, ht, nm, hmt⟩ := hall m hm2
          exact ⟨t, List.mem_cons_of_mem _ ht, nm, hmt⟩

theorem maskToken_isActive (now : Nat) (cname : String) (t : DeviceToken) :
    (maskToken now cname t).isActive = true ↔
      t.revokedAt = none ∧
        (t.expiresAt = none ∨ ∃ e, t.expiresAt = some e ∧ now < e) := by
  rcases hr : t.revokedAt with _ | r <;> rcases he : t.expiresAt with _ | e <;>
    simp [maskToken, hr, he]

/-- An eight-character preview with the ellipsis is never the full token
once the token is longer than eleven characters. -/
theorem preview_ne_token {s : String} (h : s.data.length > 11) :
    strTake s 8 ++ "..." ≠ s := by
  intro he
  have hlen := congrArg String.length he
  rw [String.length_append] at hlen
  have h1 : (strTake s 8).length = min 8 s.data.length := by
    show (s.data.take 8).length = min 8 s.data.length
    exact List.length_take 8 s.data
  have h2 : ("..." : String).length = 3 := by decide
  have h3 : s.length = s.data.length := rfl
  rw [h1, h2, h3] at hlen
  omega

set_option maxRecDepth 4000 in
/-- C9: the admin listing returns only masked entries: each carries a
`tokenPreview` equal to the first eight characters of a family token plus
an ellipsis (never the full token string, once tokens are longer than the
preview), and `isActive` holds exactly when the token is neither revoked
nor past its expiry. -/
theorem handleGet_spec (db : DB) (now : Nat) (ctx : AuthResult) (fid : String)
    (hwf : wfDB db = true)
    (hadmin : ctx.caretakerRole = some "ADMIN" ∨ ctx.isSysAdmin = true)
    (hfam : ctx.familyId = some fid) (hfid : fid ≠ "") :
    ∃ entries : List MaskedToken,
      handleGet db now ctx = (okJson (.tokenList entries), db) ∧
      ∀ m ∈ entries, ∃ dt ∈ db.deviceTokens, dt.familyId = fid ∧
        m.tokenPreview = strTake dt.token 8 ++ "..." ∧
        (m.isActive = true ↔ dt.revokedAt = none ∧
          (dt.expiresAt = none ∨ ∃ e, dt.expiresAt = some e ∧ now < e)) ∧
        (dt.token.data.length > 11 → m.tokenPreview ≠ dt.token) := by
  obtain ⟨hTok, hId, hRel, hFam, hCt, hSl⟩ := wfDB_spec db hwf
  have hNotAdminFalse : ¬ (ctx.caretakerRole ≠ some "ADMIN" ∧
      ¬ctx.isSysAdmin = true) := by
    rintro ⟨h1, h2⟩
    rcases hadmin with hr | hs
    · exact h1 hr
    · exact h2 hs
  have hjsfam : jsStr ctx.familyId = some fid := jsStr_eq_some.mpr ⟨hfam, hfid⟩
  have hrel : ∀ t ∈ sortByCreatedAtDesc
      (db.deviceTokens.filter (fun t => t.familyId = fid)),
      ∃ c ∈ db.caretakers, c.id = t.caretakerId := by
    intro t ht
    rw [mem_sortByCreatedAtDesc] at ht
    exact (hRel t (List.mem_filter.mp ht).1).1
  obtain ⟨entries, hmask, hall⟩ := maskTokens_spec db now
    (sortByCreatedAtDesc (db.deviceTokens.filter (fun t => t.familyId = fid)))
    hrel
  refine ⟨entries, ?_, ?_⟩
  · unfold handleGet
    rw [if_neg hNotAdminFalse]
    simp only [hjsfam, hmask]
  · intro m hm
    obtain ⟨t, ht, cname, hmt⟩ := hall m hm
    rw [mem_sortByCreatedAtDesc] at ht
    obtain ⟨htmem, htfid⟩ := List.mem_filter.mp ht
    refine ⟨t, htmem, by simpa using htfid, ?_, ?_, ?_⟩
    · rw [hmt]; rfl
    · rw [hmt]; exact maskToken_isActive now cname t
    · intro hlen
      rw [hmt]
      exact preview_ne_token hlen

/-- Witness for C9 on the concrete store. -/
theorem handleGet_spec_witness :
    ∃ entries : List MaskedToken,
      handleGet db0 1000
        { authenticated := true, caretakerRole := some "ADMIN",
          familyId := some "fam1" } = (okJson (.tokenList entries), db0) ∧
      ∀ m ∈ entries, ∃ dt ∈ db0.deviceTokens, dt.familyId = "fam1" ∧
        m.tokenPreview = strTake dt.token 8 ++ "..." ∧
        (m.isActive = true ↔ dt.revokedAt = none ∧
          (dt.expiresAt = none ∨ ∃ e, dt.expiresAt = some e ∧ 1000 < e)) ∧
        (dt.token.data.length > 11 → m.tokenPreview ≠ dt.token) :=
  handleGet_spec db0 1000
    { authenticated := true, caretakerRole := some "ADMIN",
      familyId := some "fam1" } "fam1" (by decide) (Or.inl rfl) rfl (by decide)

/-! ## C10 — magic-link issuance -/

/-- An authenticated device-token validation always carries a non-empty
family id (shared helper). -/
theorem validateDeviceToken_familyId (db : DB) (now : Nat) (token : String)
    (hwf : wfDB db = true)
    (hauth : (validateDeviceToken db now token).1.authenticated = true) :
    ∃ fid, (validateDeviceToken db now token).1.familyId = some fid ∧
      fid ≠ "" := by
  obtain ⟨hTok, hId, hRel, hFam, hCt, hSl⟩ := wfDB_spec db hwf
  cases hf : db.deviceTokens.find? (fun dt => dt.token = token) with
  | none =>
    simp only [validateDeviceToken, hf] at hauth
    cases hauth
  | some dt =>
    have hmem := List.mem_of_find?_eq_some hf
    obtain ⟨_, _, hfid, _, _⟩ := hRel dt hmem
    simp only [validateDeviceToken, hf] at hauth ⊢
    cases hrev : dt.revokedAt with
    | some r =>
      simp only [hrev, Option.isSome_some, if_true] at hauth
      cases hauth
    | none =>
      simp only [hrev, Option.isSome_none, Bool.false_eq_true, if_false]
        at hauth ⊢
      cases hexp : dt.expiresAt.any (fun e => now > e) with
      | true =>
        simp only [hexp, if_true] at hauth
        cases hauth
      | false =>
        simp only [hexp, Bool.false_eq_true, if_false] at hauth ⊢
        cases hcf : db.caretakers.find? (fun c => c.id = dt.caretakerId) with
        | none =>
          simp only [hcf] at hauth
          cases hauth
        | some ct =>
          simp only [hcf]
          exact ⟨dt.familyId, rfl, hfid⟩

/-- C10: a device token accepted by `validateDeviceToken` makes the
magic-link endpoint answer success with a JWT signed without any `exp`
claim whose payload is a regular (non-account) payload with auth type
DEVICE_TOKEN carrying the validations family id and slug; a rejected
device token makes it answer 401. -/
theorem magicLinkPost_spec (db : DB) (now : Nat) (token : String)
    (hwf : wfDB db = true) (htok : token ≠ "") :
    ((validateDeviceToken db now token).1.authenticated = true →
      ∃ issued : IssuedJwt, ∃ slug cid name,
        magicLinkPost db now (some (some token)) =
          (okJson (.magicLink issued slug cid name),
           (validateDeviceToken db now token).2) ∧
        issued.exp = none ∧
        ∃ pid pname ptype prole,
          issued.payload = .regular pid pname ptype prole
            (validateDeviceToken db now token).1.familyId
            (validateDeviceToken db now token).1.familySlug
            false (some "DEVICE_TOKEN")) ∧
    ((validateDeviceToken db now token).1.authenticated = false →
      magicLinkPost db now (some (some token)) =
        (errJson 401 (jsOrStr (validateDeviceToken db now token).1.error
          "Invalid or expired device token"),
         (validateDeviceToken db now token).2)) := by
  have hjs : jsStr (some token) = some token := jsStr_eq_some.mpr ⟨rfl, htok⟩
  constructor
  · intro hauth
    obtain ⟨fid, hfid, hfne⟩ := validateDeviceToken_familyId db now token hwf hauth
    have hcond : ¬ (¬ (validateDeviceToken db now token).1.authenticated ∨
        (jsStr (validateDeviceToken db now token).1.familyId).isNone = true) := by
      rintro (h1 | h2)
      · exact h1 hauth
      · rw [jsStr_eq_some.mpr ⟨hfid, hfne⟩] at h2
        cases h2
    have hres : magicLinkPost db now (some (some token)) =
        (okJson (.magicLink
          { payload := .regular
              (jsOrStr (validateDeviceToken db now token).1.caretakerId "device")
              (magicCaretakerDetails (validateDeviceToken db now token).2
                (validateDeviceToken db now token).1.caretakerId).1
              (magicCaretakerDetails (validateDeviceToken db now token).2
                (validateDeviceToken db now token).1.caretakerId).2.1
              (magicCaretakerDetails (validateDeviceToken db now token).2
                (validateDeviceToken db now token).1.caretakerId).2.2
              (validateDeviceToken db now token).1.familyId
              (validateDeviceToken db now token).1.familySlug
              false (some "DEVICE_TOKEN"),
            exp := none }
          (jsStr (validateDeviceToken db now token).1.familySlug)
          (jsStr (validateDeviceToken db now token).1.caretakerId)
          (magicCaretakerDetails (validateDeviceToken db now token).2
            (validateDeviceToken db now token).1.caretakerId).1),
         (validateDeviceToken db now token).2) := by
      unfold magicLinkPost
      simp only [hjs]
      rw [if_neg hcond]
    exact ⟨_, _, _, _, hres, rfl, _, _, _, _, rfl⟩
  · intro hauth
    have hcond : (¬ (validateDeviceToken db now token).1.authenticated ∨
        (jsStr (validateDeviceToken db now token).1.familyId).isNone = true) :=
      Or.inl (by rw [hauth]; exact fun hc => by cases hc)
    unfold magicLinkPost
    simp only [hjs]
    rw [if_pos hcond]

/-- Witness for C10: the concrete valid device token yields an eternal
DEVICE_TOKEN JWT, and a revoked variant of the store yields a 401. -/
theorem magicLinkPost_spec_witness :
    (∃ issued : IssuedJwt, ∃ slug cid name,
      magicLinkPost db0 1000 (some (some "devtok1")) =
        (okJson (.magicLink issued slug cid name),
         (validateDeviceToken db0 1000 "devtok1").2) ∧
      issued.exp = none ∧
      ∃ pid pname ptype prole,
        issued.payload = .regular pid pname ptype prole
          (validateDeviceToken db0 1000 "devtok1").1.familyId
          (validateDeviceToken db0 1000 "devtok1").1.familySlug
          false (some "DEVICE_TOKEN")) ∧
    magicLinkPost { db0 with deviceTokens := [{ dt0 with revokedAt := some 1 }] }
        1000 (some (some "devtok1")) =
      (errJson 401 (jsOrStr (validateDeviceToken
          { db0 with deviceTokens := [{ dt0 with revokedAt := some 1 }] }
          1000 "devtok1").1.error "Invalid or expired device token"),
       (validateDeviceToken
          { db0 with deviceTokens := [{ dt0 with revokedAt := some 1 }] }
          1000 "devtok1").2) :=
  ⟨(magicLinkPost_spec db0 1000 "devtok1" (by decide) (by decide)).1 (by decide),
   (magicLinkPost_spec
      { db0 with deviceTokens := [{ dt0 with revokedAt := some 1 }] }
      1000 "devtok1" (by decide) (by decide)).2 (by decide)⟩

/-! ## C3 — error-response shapes -/

/-- A response is a redirect. -/
def HttpResponse.isRedirect : HttpResponse → Bool
  | .redirect _ _ => true
  | .json _ _ _ _ => false

/-- The error-shape discipline of the JSON routes: the response is a JSON
body, and when it is a failure it carries an error string and one of the
statuses 400, 401, 403, 404 or 500. -/
def jsonErrorsOnly : HttpResponse → Bool
  | .json st success err _ =>
    success || (err.isSome &&
      (st == 400 || st == 401 || st == 403 || st == 404 || st == 500))
  | .redirect _ _ => false

theorem jsonErrorsOnly_errJson {st : Nat} (msg : String)
    (h : st = 400 ∨ st = 401 ∨ st = 403 ∨ st = 404 ∨ st = 500) :
    jsonErrorsOnly (errJson st msg) = true := by
  rcases h with h | h | h | h | h <;> subst h <;> rfl

theorem jsonErrorsOnly_okJson (d : RespData) :
    jsonErrorsOnly (okJson d) = true := rfl

theorem jsonErrorsOnly_handleGet (db : DB) (now : Nat) (ctx : AuthResult) :
    jsonErrorsOnly (handleGet db now ctx).1 = true := by
  unfold handleGet
  repeat' (first | split | (dsimp only; split))
  all_goals ((try dsimp only); rfl)

theorem jsonErrorsOnly_handlePost (db : DB) (now : Nat)
    (genId genToken : String) (body : Option DeviceTokenPostBody)
    (ctx : AuthResult) :
    jsonErrorsOnly (handlePost db now genId genToken body ctx).1 = true := by
  unfold handlePost
  repeat' (first | split | (dsimp only; split))
  all_goals ((try dsimp only); rfl)

theorem jsonErrorsOnly_handleDelete (db : DB) (now : Nat)
    (queryId : Option String) (ctx : AuthResult) :
    jsonErrorsOnly (handleDelete db now queryId ctx).1 = true := by
  unfold handleDelete
  repeat' (first | split | (dsimp only; split))
  all_goals ((try dsimp only); rfl)

theorem jsonErrorsOnly_withAuthContext
    (handler : Request → AuthResult → HttpResponse × DB)
    (hh : ∀ r a, jsonErrorsOnly (handler r a).1 = true)
    (env : Env) (jenv : JwtEnv) (db : DB) (bl : Blacklist) (now : Nat)
    (req : Request) :
    jsonErrorsOnly (withAuthContext handler env jenv db bl now req).1 = true := by
  unfold withAuthContext
  repeat' (first | split | (dsimp only; split))
  all_goals ((try dsimp only); first | apply hh | rfl)

set_option maxHeartbeats 8000000 in
theorem jsonErrorsOnly_voiceLogPost (db : DB) (now : Nat) (genId : String)
    (authHeader : Option String) (body : Option VoiceBody) :
    jsonErrorsOnly (voiceLogPost db now genId authHeader body).1 = true := by
  unfold voiceLogPost
  repeat' (first | split | (dsimp only; split))
  all_goals ((try dsimp only); rfl)

theorem jsonErrorsOnly_magicLinkPost (db : DB) (now : Nat)
    (body : Option (Option String)) :
    jsonErrorsOnly (magicLinkPost db now body).1 = true := by
  unfold magicLinkPost
  repeat' (first | split | (dsimp only; split))
  all_goals ((try dsimp only); rfl)

set_option maxHeartbeats 8000000 in
theorem kindleLogPost_redirect (db : DB) (now : Nat) (genId origin : String)
    (form : Option KindleForm) :
    ∃ loc, (kindleLogPost db now genId origin form).1 =
      .redirect 303 loc := by
  unfold kindleLogPost redirectWithError redirectWithSuccess
  repeat' (first | split | (dsimp only; split))
  all_goals ((try dsimp only); exact ⟨_, rfl⟩)

/-- Counterexample to C3: the kindle log route surfaces an error (missing
authentication token) as an HTTP 303 redirect carrying the error in a
query parameter, not as a JSON `success:false` payload with one of the
statuses 400, 401, 403, 404 or 500. -/
theorem kindleLog_error_is_redirect :
    (kindleLogPost db0 1000 "gen1" "http://host"
      (some { token := none, action := none, babyId := none, amount := none,
              unitAbbr := none, bottleType := none, side := none, type := none,
              sleepType := none, sleepLogId := none, medicineId := none,
              doseAmount := none })).1 =
      .redirect 303 "http://host/kindle?error=Missing authentication token" ∧
    (kindleLogPost db0 1000 "gen1" "http://host"
      (some { token := none, action := none, babyId := none, amount := none,
              unitAbbr := none, bottleType := none, side := none, type := none,
              sleepType := none, sleepLogId := none, medicineId := none,
              doseAmount := none })).1.isRedirect = true :=
  ⟨by decide, by decide⟩

/-- Amended C3: every error response of the device-tokens, voice/log and
auth/magic-link routes is a JSON `success:false` payload with an error
string and status 400, 401, 403, 404 or 500; the kindle/log route instead
answers every request — errors included — with an HTTP 303 redirect back
to the kindle page. -/
theorem error_responses_shape :
    (∀ (env : Env) (jenv : JwtEnv) (db : DB) (bl : Blacklist) (now : Nat)
      (req : Request),
      jsonErrorsOnly (deviceTokensGET env jenv db bl now req).1 = true) ∧
    (∀ (env : Env) (jenv : JwtEnv) (db : DB) (bl : Blacklist) (now : Nat)
      (genId genToken : String) (body : Option DeviceTokenPostBody)
      (req : Request),
      jsonErrorsOnly
        (deviceTokensPOST env jenv db bl now genId genToken body req).1 = true) ∧
    (∀ (env : Env) (jenv : JwtEnv) (db : DB) (bl : Blacklist) (now : Nat)
      (req : Request),
      jsonErrorsOnly (deviceTokensDELETE env jenv db bl now req).1 = true) ∧
    (∀ (db : DB) (now : Nat) (genId : String) (authHeader : Option String)
      (body : Option VoiceBody),
      jsonErrorsOnly (voiceLogPost db now genId authHeader body).1 = true) ∧
    (∀ (db : DB) (now : Nat) (body : Option (Option String)),
      jsonErrorsOnly (magicLinkPost db now body).1 = true) ∧
    (∀ (db : DB) (now : Nat) (genId origin : String)
      (form : Option KindleForm),
      ∃ loc, (kindleLogPost db now genId origin form).1 = .redirect 303 loc) :=
  ⟨fun env jenv db bl now req =>
    jsonErrorsOnly_withAuthContext _
      (fun _ a => jsonErrorsOnly_handleGet db now a) env jenv db bl now req,
   fun env jenv db bl now genId genToken body req =>
    jsonErrorsOnly_withAuthContext _
      (fun _ a => jsonErrorsOnly_handlePost db now genId genToken body a)
      env jenv db bl now req,
   fun env jenv db bl now req =>
    jsonErrorsOnly_withAuthContext _
      (fun r a => jsonErrorsOnly_handleDelete db now r.url.queryId a)
      env jenv db bl now req,
   jsonErrorsOnly_voiceLogPost,
   jsonErrorsOnly_magicLinkPost,
   kindleLogPost_redirect⟩

end SproutTrack
